import Mathlib

/-!
Shallow embedding of the domain data-access layer of the Smart-Medication-System
repository (source file: src/models.py, class DatabaseManager), together with
proofs settling the frozen claims C1..C10 about it.

Modelling conventions (documented per definition below):
* The MongoDB collections become lists of records inside a `Store` value; every
  state-changing operation takes the store and returns a result together with
  the new store.  MongoDB-generated ObjectIds are modelled as `String`
  parameters supplied by the caller of the model.
* Timestamps (`datetime.utcnow()`) are integers (seconds); `.date()` extraction
  is floor-division by 86400, giving an integer day number.  Comparisons of ISO
  date strings of equal format in the source are order-isomorphic to integer
  comparisons of day numbers, so date fields are stored as day numbers.
* `random.randint(100000, 999999)` outcomes are passed in as a list of draws.
* Python floats are modelled as exact rationals; `round(x, 1)` is
  round-half-to-even at one decimal place, matching Python's documented
  rounding mode on exactly-representable inputs.
* `bcrypt` hashing is modelled as the identity on the password string (no
  claim concerns the hash function itself).
-/

namespace MediScan

/-- Result of a store operation: the Python code returns either a success
dictionary or a dictionary with an "error" key; we model this as a sum. -/
inductive Res (α : Type) where
  | ok : α → Res α
  | err : String → Res α
deriving DecidableEq, Repr

/-- True exactly on the error case (Python: `'error' in result`). -/
def Res.isErr {α : Type} : Res α → Bool
  | Res.ok _ => false
  | Res.err _ => true

/-- Day number of a timestamp, modelling `datetime.utcfromtimestamp(ts).date()`
as floor division of the POSIX timestamp by 86400. -/
def dateOf (ts : Int) : Int := Int.fdiv ts 86400

/-- Code-point lexicographic order on character lists, Boolean valued; this is
exactly how Python compares strings (`x['time']` sort keys, `<=` on str). -/
def lexLe : List Char → List Char → Bool
  | [], _ => true
  | _ :: _, [] => false
  | a :: as, b :: bs =>
    if a.toNat < b.toNat then true
    else if b.toNat < a.toNat then false
    else lexLe as bs

/-- String comparison used by Python's stable list sort on string keys. -/
def strLe (a b : String) : Bool := lexLe a.data b.data

/-- ASCII lower-casing of a string, modelling `str.lower()` (the medication
names in the repository are ASCII, where the two functions agree). -/
def lowerStr (s : String) : String := String.mk (s.data.map Char.toLower)

/-- Python whitespace test used by `str.strip()` (ASCII whitespace). -/
def isSpaceChar (c : Char) : Bool :=
  c.val = 32 || c.val = 9 || c.val = 10 || c.val = 13 || c.val = 11 || c.val = 12

/-- Model of Python `str.strip()`: drop leading and trailing whitespace. -/
def stripStr (s : String) : String :=
  String.mk (((s.data.dropWhile isSpaceChar).reverse.dropWhile isSpaceChar).reverse)

/-- Substring test on character lists: `needle` occurs contiguously in the
haystack.  Models a regex match of a metacharacter-free pattern, which is how
`$regex` is used in `search_pharmacies_by_medication`. -/
def containsSub (needle : List Char) : List Char → Bool
  | [] => needle.isPrefixOf []
  | c :: rest => needle.isPrefixOf (c :: rest) || containsSub needle rest

/-- Decimal digit character for a value below ten. -/
def digitChar (d : Nat) : Char := Char.ofNat (48 + d)

/-- Fuel-indexed decimal representation of a natural number, most significant
digit first.  With fuel above the number this is the usual decimal expansion;
it models Python's `str(int)` for non-negative arguments. -/
def natReprAux : Nat → Nat → List Char
  | 0, _ => []
  | Nat.succ fuel, n =>
    if n < 10 then [digitChar n]
    else natReprAux fuel (n / 10) ++ [digitChar (n % 10)]

/-- Decimal representation of a natural number (model of `str(n)`). -/
def natRepr (n : Nat) : List Char := natReprAux (n + 1) n

/-- Model of `str(n)` for a natural number. -/
def natStr (n : Nat) : String := String.mk (natRepr n)

/-- Model of Python slicing `s[-6:]`: the last six characters (the whole string
when it is shorter). -/
def lastSix (s : String) : String := String.mk (s.data.drop (s.data.length - 6))

/-- Round a rational to the nearest integer, ties to even: the behaviour of
Python's built-in `round` on exactly representable values. -/
def roundHalfEven (q : ℚ) : ℤ :=
  let f := ⌊q⌋
  let frac := q - f
  if frac < 1/2 then f
  else if 1/2 < frac then f + 1
  else if f % 2 = 0 then f else f + 1

/-- Model of Python `round(q, 1)`. -/
def pyRound1 (q : ℚ) : ℚ := (roundHalfEven (q * 10) : ℚ) / 10

/-- Replace the first element satisfying `p` using `f`; models the effect of a
MongoDB `update_one`, which updates the first matching document. -/
def updateFirst {α : Type} (p : α → Bool) (f : α → α) : List α → List α
  | [] => []
  | x :: xs => if p x then f x :: xs else x :: updateFirst p f xs

/-- Remove the first element satisfying `p`; models `delete_one`. -/
def removeFirst {α : Type} (p : α → Bool) : List α → List α
  | [] => []
  | x :: xs => if p x then xs else x :: removeFirst p xs

/-- Numeric value of a list of decimal digit characters. -/
def natOfDigits (cs : List Char) : Nat :=
  cs.foldl (fun a c => a * 10 + (c.val.toNat - 48)) 0

/-- Split a character list on a separator character. -/
def splitChar (sep : Char) : List Char → List (List Char)
  | [] => [[]]
  | c :: cs =>
    let r := splitChar sep cs
    if c = sep then [] :: r
    else
      match r with
      | [] => [[c]]
      | g :: gs => (c :: g) :: gs

/-- Model of `datetime.strptime(t, "%H:%M")` succeeding: one or two digits for
the hour (value at most 23), a colon, one or two digits for the minute (value
at most 59), nothing else.  This is the time-format validation performed by
`add_medication`. -/
def isValidTime (t : String) : Bool :=
  match splitChar ':' t.data with
  | [h, m] =>
    decide (1 ≤ h.length) && decide (h.length ≤ 2) &&
    decide (1 ≤ m.length) && decide (m.length ≤ 2) &&
    h.all (fun c => c.isDigit) && m.all (fun c => c.isDigit) &&
    decide (natOfDigits h ≤ 23) && decide (natOfDigits m ≤ 59)
  | _ => false

/-- User document (collection `users`).  Extra keyword fields passed by some
callers are not modelled; no claim concerns them. -/
structure User where
  id : String
  email : String
  password : String
  role : String
  is_active : Bool
  created_at : Int
deriving DecidableEq, Repr

/-- Patient document (collection `patients`). -/
structure Patient where
  id : String
  user_id : String
  name : String
  age : Int
  gender : String
  allergies : List String
  medical_conditions : List String
  guardian_code : String
  created_at : Int
deriving DecidableEq, Repr

/-- Guardian document (collection `guardians`). -/
structure Guardian where
  id : String
  user_id : String
  name : String
  phone : String
  relationship : String
  created_at : Int
deriving DecidableEq, Repr

/-- Medication document (collection `medications`).  `refill_date` is stored
already parsed (day number); `updated_at` and `deactivated_at` are absent until
first set by an update, modelled with `Option`. -/
structure Medication where
  id : String
  patient_id : String
  medication_name : String
  dosage : String
  frequency : String
  times : List String
  notes : String
  side_effects : String
  storage : String
  refill_date : Option Int
  is_active : Bool
  created_at : Int
  updated_at : Option Int
  deactivated_at : Option Int
deriving DecidableEq, Repr

/-- Medication log document (collection `medication_logs`); `date` is the day
number derived from `taken_at` (the source stores its ISO string, whose order
coincides with the numeric order of day numbers). -/
structure MedicationLog where
  id : String
  patient_id : String
  medication_id : String
  taken_at : Int
  date : Int
  status : String
deriving DecidableEq, Repr

/-- Symptom log document (collection `symptoms`). -/
structure SymptomLog where
  patient_id : String
  date : Int
  mood : Int
  energy_level : Int
  pain_level : Int
  side_effects : List String
  notes : String
  logged_at : Int
deriving DecidableEq, Repr

/-- Embedded pharmacy inventory item. -/
structure InventoryItem where
  medication_name : String
  price : ℚ
  in_stock : Bool
  updated_at : Int
deriving DecidableEq, Repr

/-- Pharmacy document (collection `pharmacies`). -/
structure Pharmacy where
  id : String
  user_id : String
  name : String
  address : String
  phone : String
  license_number : String
  is_verified : Bool
  delivery_available : Bool
  inventory : List InventoryItem
  created_at : Int
deriving DecidableEq, Repr

/-- Guardian-patient link document (collection `guardian_links`). -/
structure GuardianLink where
  id : String
  patient_id : String
  guardian_id : String
  linked_at : Int
  is_active : Bool
deriving DecidableEq, Repr

/-- Row of the schedule produced by `get_today_medications`. -/
structure ScheduleItem where
  medication_id : String
  medication_name : String
  dosage : String
  time : String
  taken : Bool
  notes : String
  frequency : String
deriving DecidableEq, Repr

/-- The whole database state: one list per MongoDB collection used by
`DatabaseManager`. -/
structure Store where
  users : List User
  patients : List Patient
  guardians : List Guardian
  medications : List Medication
  pharmacies : List Pharmacy
  medication_logs : List MedicationLog
  symptoms : List SymptomLog
  guardian_links : List GuardianLink
deriving DecidableEq, Repr

/-- The empty database. -/
def emptyStore : Store := ⟨[], [], [], [], [], [], [], []⟩

/-- Number of collections on which two stores differ; an operation performing
at most one logical write leaves at most one collection changed. -/
def collectionsChanged (s t : Store) : Nat :=
  (if s.users = t.users then 0 else 1) +
  (if s.patients = t.patients then 0 else 1) +
  (if s.guardians = t.guardians then 0 else 1) +
  (if s.medications = t.medications then 0 else 1) +
  (if s.pharmacies = t.pharmacies then 0 else 1) +
  (if s.medication_logs = t.medication_logs then 0 else 1) +
  (if s.symptoms = t.symptoms then 0 else 1) +
  (if s.guardian_links = t.guardian_links then 0 else 1)

/-- Model of `DatabaseManager.create_user` (src/models.py lines 56-88).
`newId` stands for the ObjectId MongoDB assigns on insert; the extra keyword
fields are not modelled.  The `not email or not password or not role` guard is
Python truthiness: a string is falsy exactly when empty. -/
def create_user (s : Store) (now : Int) (newId email password role : String) :
    Res String × Store :=
  if email = "" || password = "" || role = "" then
    (Res.err "Email, password, and role are required", s)
  else if !(role = "patient" || role = "guardian" || role = "pharmacy") then
    (Res.err "Invalid role", s)
  else if s.users.any (fun u => u.email == email) then
    (Res.err "Email already exists", s)
  else
    (Res.ok newId,
      { s with users := s.users ++
          [{ id := newId, email := email, password := password, role := role,
             is_active := true, created_at := now }] })

/-- Loop body of `_generate_guardian_code` (src/models.py lines 150-159): up to
`fuel` attempts, each consuming one random draw; an attempt succeeds when its
six-digit decimal string is not among the existing guardian codes. -/
def genCodeLoop : Nat → List Nat → List String → Option String
  | 0, _, _ => none
  | Nat.succ fuel, draws, existing =>
    match draws with
    | [] => none
    | d :: rest =>
      let code := natStr d
      if existing.contains code then genCodeLoop fuel rest existing else some code

/-- Fallback of `_generate_guardian_code`: `str(int(utcnow().timestamp()))[-6:]`. -/
def timestampFallback (ts : Nat) : String := lastSix (natStr ts)

/-- Model of `DatabaseManager._generate_guardian_code` (src/models.py lines
150-159): ten collision-checked random attempts, then the timestamp fallback
(which is not collision-checked).  `draws` is the stream of
`random.randint(100000, 999999)` outcomes, `ts` the current Unix timestamp. -/
def generate_guardian_code (draws : List Nat) (ts : Nat) (existing : List String) :
    String :=
  match genCodeLoop 10 draws existing with
  | some c => c
  | none => timestampFallback ts

/-- Model of `DatabaseManager.create_patient_profile` (src/models.py lines
111-148).  The first guard is Python's `not all([user_id, name, age, gender])`:
a string is falsy exactly when empty and an `int` exactly when zero, so the
guard fires on `age = 0`.  `isinstance(age, int)` always holds in the model. -/
def create_patient_profile (s : Store) (now : Int) (newId : String)
    (draws : List Nat) (user_id name : String) (age : Int) (gender : String)
    (allergies conditions : Option (List String)) : Res String × Store :=
  if user_id = "" || name = "" || age = 0 || gender = "" then
    (Res.err "User ID, name, age, and gender are required", s)
  else if age < 0 || 150 < age then
    (Res.err "Invalid age", s)
  else if (s.users.find? (fun u => u.id == user_id && u.role == "patient")).isNone then
    (Res.err "Invalid user or user is not a patient", s)
  else if (s.patients.find? (fun p => p.user_id == user_id)).isSome then
    (Res.err "Patient profile already exists", s)
  else
    (Res.ok newId,
      { s with patients := s.patients ++
          [{ id := newId, user_id := user_id, name := name, age := age,
             gender := gender, allergies := allergies.getD [],
             medical_conditions := conditions.getD [],
             guardian_code :=
               generate_guardian_code draws now.toNat
                 (s.patients.map (fun p => p.guardian_code)),
             created_at := now }] })

/-- Model of `DatabaseManager.create_guardian_profile` (src/models.py lines
170-201). -/
def create_guardian_profile (s : Store) (now : Int)
    (newId user_id name phone relationship : String) : Res String × Store :=
  if user_id = "" || name = "" || phone = "" || relationship = "" then
    (Res.err "All fields are required", s)
  else if (s.users.find? (fun u => u.id == user_id && u.role == "guardian")).isNone then
    (Res.err "Invalid user or user is not a guardian", s)
  else if (s.guardians.find? (fun g => g.user_id == user_id)).isSome then
    (Res.err "Guardian profile already exists", s)
  else
    (Res.ok newId,
      { s with guardians := s.guardians ++
          [{ id := newId, user_id := user_id, name := name, phone := phone,
             relationship := relationship, created_at := now }] })

/-- Model of `DatabaseManager.link_guardian_to_patient` (src/models.py lines
203-239). -/
def link_guardian_to_patient (s : Store) (now : Int)
    (newId guardian_code guardian_user_id : String) : Res String × Store :=
  if guardian_code = "" || guardian_user_id = "" then
    (Res.err "Guardian code and user ID are required", s)
  else
    match s.patients.find? (fun p => p.guardian_code == guardian_code) with
    | none => (Res.err "Invalid guardian code", s)
    | some patient =>
      match s.guardians.find? (fun g => g.user_id == guardian_user_id) with
      | none => (Res.err "Guardian profile not found", s)
      | some guardian =>
        if s.guardian_links.any
            (fun l => l.patient_id == patient.id && l.guardian_id == guardian.id) then
          (Res.err "Guardian already linked to this patient", s)
        else
          (Res.ok newId,
            { s with guardian_links := s.guardian_links ++
                [{ id := newId, patient_id := patient.id,
                   guardian_id := guardian.id, linked_at := now,
                   is_active := true }] })

/-- Model of `DatabaseManager.add_medication` (src/models.py lines 284-326,
the effective definition; an earlier identical-contract version is commented
out).  `times` is falsy exactly when empty, so the `not all([...])` guard
subsumes the later emptiness check.  `refill_date` arrives already parsed (an
invalid date string raises inside the `try` and produces a generic failure
before any write; that path is not modelled). -/
def add_medication (s : Store) (now : Int)
    (newId patient_id med_name dosage frequency : String) (times : List String)
    (notes side_effects storage : Option String) (refill_date : Option Int) :
    Res String × Store :=
  if patient_id = "" || med_name = "" || dosage = "" || frequency = "" ||
      times.isEmpty then
    (Res.err "All required fields must be provided", s)
  else
    match times.find? (fun t => !isValidTime t) with
    | some t => (Res.err ("Invalid time format: " ++ t ++ ". Use HH:MM format"), s)
    | none =>
      if (s.patients.find? (fun p => p.id == patient_id)).isNone then
        (Res.err "Patient not found", s)
      else
        (Res.ok newId,
          { s with medications := s.medications ++
              [{ id := newId, patient_id := patient_id,
                 medication_name := stripStr med_name, dosage := stripStr dosage,
                 frequency := stripStr frequency, times := times,
                 notes := stripStr (notes.getD ""),
                 side_effects := stripStr (side_effects.getD ""),
                 storage := stripStr (storage.getD ""),
                 refill_date := refill_date, is_active := true,
                 created_at := now, updated_at := none,
                 deactivated_at := none }] })

/-- Model of `DatabaseManager.get_patient_medications` (src/models.py lines
382-391): the patient's medications with `is_active` true, in storage order. -/
def get_patient_medications (s : Store) (patient_id : String) : List Medication :=
  s.medications.filter (fun m => m.patient_id == patient_id && m.is_active)

/-- Sparse update mapping accepted by the effective `update_medication`
(src/models.py lines 393-419, the keyword-argument definition, which shadows
the positional full-replace definition at lines 329-361).  A `none` field is
either not supplied or supplied as Python `None`; both are dropped from the
update by `{k: v for k, v in updates.items() if v is not None}`. -/
structure MedUpdates where
  medication_name : Option String := none
  dosage : Option String := none
  frequency : Option String := none
  times : Option (List String) := none
  notes : Option String := none
  side_effects : Option String := none
  storage : Option String := none
  refill_date : Option Int := none
  is_active : Option Bool := none
deriving DecidableEq, Repr

/-- True when at least one update survives the `is not None` filter. -/
def MedUpdates.hasSome (u : MedUpdates) : Bool :=
  u.medication_name.isSome || u.dosage.isSome || u.frequency.isSome ||
  u.times.isSome || u.notes.isSome || u.side_effects.isSome ||
  u.storage.isSome || u.refill_date.isSome || u.is_active.isSome

/-- The `$set` document applied by `update_medication`: the supplied fields
plus a fresh `updated_at`. -/
def applyMedUpdates (u : MedUpdates) (now : Int) (m : Medication) : Medication :=
  { m with
    medication_name := u.medication_name.getD m.medication_name,
    dosage := u.dosage.getD m.dosage,
    frequency := u.frequency.getD m.frequency,
    times := u.times.getD m.times,
    notes := u.notes.getD m.notes,
    side_effects := u.side_effects.getD m.side_effects,
    storage := u.storage.getD m.storage,
    refill_date :=
      match u.refill_date with
      | some d => some d
      | none => m.refill_date,
    is_active := u.is_active.getD m.is_active,
    updated_at := some now }

/-- Model of the effective `DatabaseManager.update_medication` (src/models.py
lines 393-419).  `update_one` touches the first document matching the id;
`modified_count` is zero exactly when no document matched or the `$set` left
the matched document unchanged, in which case the operation reports an error
and the state is unchanged. -/
def update_medication (s : Store) (now : Int) (medication_id : String)
    (u : MedUpdates) : Res Unit × Store :=
  if medication_id = "" then (Res.err "Medication ID is required", s)
  else if !u.hasSome then (Res.err "No valid updates provided", s)
  else
    let newMeds :=
      updateFirst (fun m => m.id == medication_id) (applyMedUpdates u now)
        s.medications
    if s.medications.any (fun m => m.id == medication_id) &&
        decide (newMeds ≠ s.medications) then
      (Res.ok (), { s with medications := newMeds })
    else
      (Res.err "Medication not found or no changes made", s)

/-- Model of `DatabaseManager.delete_medication` (src/models.py lines 363-376):
`delete_one` removes the first document with the given id. -/
def delete_medication (s : Store) (medication_id : String) : Res Unit × Store :=
  if s.medications.any (fun m => m.id == medication_id) then
    (Res.ok (),
      { s with medications :=
          removeFirst (fun m => m.id == medication_id) s.medications })
  else (Res.err "Medication not found", s)

/-- Model of `DatabaseManager.deactivate_medication` (src/models.py lines
421-437): sets `is_active` false and `deactivated_at`; `modified_count` is zero
when nothing matched or nothing changed, which the code reports as not found. -/
def deactivate_medication (s : Store) (now : Int) (medication_id : String) :
    Res Unit × Store :=
  let newMeds :=
    updateFirst (fun m => m.id == medication_id)
      (fun m => { m with is_active := false, deactivated_at := some now })
      s.medications
  if s.medications.any (fun m => m.id == medication_id) &&
      decide (newMeds ≠ s.medications) then
    (Res.ok (), { s with medications := newMeds })
  else (Res.err "Medication not found", s)

/-- Model of `DatabaseManager.log_medication_taken` (src/models.py lines
440-471): requires an active medication of the patient, then inserts one log
row; nothing is deduplicated. -/
def log_medication_taken (s : Store) (now : Int)
    (newId patient_id medication_id : String) (taken_at : Option Int) :
    Res String × Store :=
  if patient_id = "" || medication_id = "" then
    (Res.err "Patient ID and medication ID are required", s)
  else if (s.medications.find? (fun m =>
      m.id == medication_id && m.patient_id == patient_id && m.is_active)).isNone then
    (Res.err "Medication not found or not active", s)
  else
    let taken_time := taken_at.getD now
    (Res.ok newId,
      { s with medication_logs := s.medication_logs ++
          [{ id := newId, patient_id := patient_id,
             medication_id := medication_id, taken_at := taken_time,
             date := dateOf taken_time, status := "taken" }] })

/-- Result dictionary of `get_medication_compliance`; the zero-medication
branch carries a message and no period, the normal branch the reverse. -/
structure ComplianceResult where
  compliance_percentage : ℚ
  taken_doses : Int
  expected_doses : Int
  period_days : Option Int
  message : Option String
deriving DecidableEq, Repr

/-- Model of `DatabaseManager.get_medication_compliance` (src/models.py lines
473-520).  The log filter compares ISO date strings of a fixed format, which
is the same order as the day numbers used here.  A read: the state is not
returned because it is never changed. -/
def get_medication_compliance (s : Store) (now : Int) (patient_id : String)
    (days : Int) : Res ComplianceResult :=
  if days < 1 || 365 < days then Res.err "Days must be between 1 and 365"
  else
    let end_date := dateOf now
    let start_date := end_date - (days - 1)
    let logs := s.medication_logs.filter (fun l =>
      l.patient_id == patient_id && decide (start_date ≤ l.date) &&
      decide (l.date ≤ end_date))
    let medications := get_patient_medications s patient_id
    if medications.isEmpty then
      Res.ok { compliance_percentage := 0, taken_doses := 0, expected_doses := 0,
               period_days := none, message := some "No active medications found" }
    else
      let expected_doses :=
        medications.foldl (fun acc m => acc + (m.times.length : Int) * days) 0
      let taken_doses : Int := logs.length
      let compliance : ℚ :=
        if 0 < expected_doses then
          (taken_doses : ℚ) / (expected_doses : ℚ) * 100
        else 0
      Res.ok { compliance_percentage := pyRound1 compliance,
               taken_doses := taken_doses, expected_doses := expected_doses,
               period_days := some days, message := none }

/-- The upsert filter of `log_symptom`: same patient id and same date. -/
def symKey (patient_id : String) (d : Int) (r : SymptomLog) : Bool :=
  r.patient_id == patient_id && decide (r.date = d)

/-- The `$set` document of `log_symptom` (it lists every field). -/
def symData (now : Int) (patient_id : String)
    (mood energy_level pain_level : Int) (side_effects : Option (List String))
    (notes : Option String) : SymptomLog :=
  { patient_id := patient_id, date := dateOf now, mood := mood,
    energy_level := energy_level, pain_level := pain_level,
    side_effects := side_effects.getD [],
    notes := stripStr (notes.getD ""), logged_at := now }

/-- Model of `DatabaseManager.log_symptom` (src/models.py lines 523-565): range
validation, patient existence, then an upsert keyed on (patient, today): the
`$set` document contains every field of the record, so an existing first match
is replaced wholesale, otherwise a new record is inserted. -/
def log_symptom (s : Store) (now : Int) (patient_id : String)
    (mood energy_level pain_level : Int) (side_effects : Option (List String))
    (notes : Option String) : Res Unit × Store :=
  if patient_id = "" then (Res.err "Patient ID is required", s)
  else if !(decide (1 ≤ mood) && decide (mood ≤ 10) &&
      decide (1 ≤ energy_level) && decide (energy_level ≤ 10) &&
      decide (1 ≤ pain_level) && decide (pain_level ≤ 10)) then
    (Res.err "Mood, energy level, and pain level must be integers between 1 and 10", s)
  else if (s.patients.find? (fun p => p.id == patient_id)).isNone then
    (Res.err "Patient not found", s)
  else
    let data := symData now patient_id mood energy_level pain_level side_effects notes
    if s.symptoms.any (symKey patient_id (dateOf now)) then
      let newSyms :=
        updateFirst (symKey patient_id (dateOf now)) (fun _ => data) s.symptoms
      (Res.ok (), { s with symptoms := newSyms })
    else
      (Res.ok (), { s with symptoms := s.symptoms ++ [data] })

/-- The list of symptom records after the upsert of `log_symptom`. -/
def symUpsert (s : Store) (now : Int) (pid : String) (data : SymptomLog) : List SymptomLog :=
  if s.symptoms.any (symKey pid (dateOf now)) then
    updateFirst (symKey pid (dateOf now)) (fun _ => data) s.symptoms
  else s.symptoms ++ [data]

/-- Model of `DatabaseManager.create_pharmacy` (src/models.py lines 593-623):
first creates the user account (one insert into `users`), then inserts the
pharmacy document (a second insert, into `pharmacies`). -/
def create_pharmacy (s : Store) (now : Int) (newUserId newPharmacyId : String)
    (email password name address phone license_number : String) :
    Res String × Store :=
  if email = "" || password = "" || name = "" || address = "" || phone = "" ||
      license_number = "" then
    (Res.err "All fields are required", s)
  else
    match create_user s now newUserId email password "pharmacy" with
    | (Res.err e, s1) => (Res.err e, s1)
    | (Res.ok uid, s1) =>
      (Res.ok newPharmacyId,
        { s1 with pharmacies := s1.pharmacies ++
            [{ id := newPharmacyId, user_id := uid, name := stripStr name,
               address := stripStr address, phone := stripStr phone,
               license_number := stripStr license_number, is_verified := false,
               delivery_available := false, inventory := [],
               created_at := now }] })

/-- Model of `DatabaseManager.add_pharmacy_inventory` (src/models.py lines
625-673).  The `not all([pharmacy_id, medication_name, price])` guard is Python
truthiness and fires on `price = 0`.  The duplicate check lower-cases but does
not strip, while the pushed item stores the stripped name.  The in-place update
uses the positional operator on the first inventory element whose name equals
the matched element's exact name; `modified_count` is zero when the resulting
document equals the old one. -/
def add_pharmacy_inventory (s : Store) (now : Int)
    (pharmacy_id medication_name : String) (price : ℚ) (in_stock : Bool) :
    Res Unit × Store :=
  if pharmacy_id = "" || medication_name = "" || price = 0 then
    (Res.err "Pharmacy ID, medication name, and price are required", s)
  else if price < 0 then
    (Res.err "Price must be a positive number", s)
  else
    match s.pharmacies.find? (fun p => p.id == pharmacy_id) with
    | none => (Res.err "Pharmacy not found", s)
    | some ph =>
      match ph.inventory.find? (fun item =>
          lowerStr item.medication_name == lowerStr medication_name) with
      | some ex =>
        let setFields := fun (item : InventoryItem) =>
          { item with price := price, in_stock := in_stock, updated_at := now }
        let updInv := fun (p : Pharmacy) =>
          let newInv :=
            updateFirst (fun item => item.medication_name == ex.medication_name)
              setFields p.inventory
          { p with inventory := newInv }
        let newPharms :=
          updateFirst (fun p => p.id == pharmacy_id) updInv s.pharmacies
        if decide (newPharms ≠ s.pharmacies) then
          (Res.ok (), { s with pharmacies := newPharms })
        else (Res.err "Failed to update inventory", s)
      | none =>
        let item : InventoryItem :=
          { medication_name := stripStr medication_name, price := price,
            in_stock := in_stock, updated_at := now }
        let pushInv := fun (p : Pharmacy) => { p with inventory := p.inventory ++ [item] }
        let newPharms :=
          updateFirst (fun p => p.id == pharmacy_id) pushInv s.pharmacies
        (Res.ok (), { s with pharmacies := newPharms })

/-- Model of `DatabaseManager.search_pharmacies_by_medication` (src/models.py
lines 675-690).  The MongoDB query puts two independent conditions on paths
into the `inventory` array; MongoDB matches a document when EACH condition is
satisfied by SOME array element, not necessarily the same one (no
`$elemMatch`).  The `$regex` pattern is the stripped query with the
case-insensitive option, modelled as case-insensitive substring containment
(faithful for patterns without regex metacharacters). -/
def search_pharmacies_by_medication (s : Store) (medication_name : String) :
    List Pharmacy :=
  if medication_name = "" then []
  else
    let pat := (lowerStr (stripStr medication_name)).data
    s.pharmacies.filter (fun ph =>
      ph.inventory.any (fun item =>
        containsSub pat (lowerStr item.medication_name).data) &&
      ph.inventory.any (fun item => item.in_stock))

/-- Comparison used by `today_schedule.sort(key=lambda x: x['time'])`. -/
def schedLe (a b : ScheduleItem) : Prop := lexLe a.time.data b.time.data = true

instance : DecidableRel schedLe := fun a b =>
  inferInstanceAs (Decidable (lexLe a.time.data b.time.data = true))

/-- schedLe is total (needed for sortedness of the insertion sort). -/
instance : IsTotal ScheduleItem schedLe := by
  constructor
  intro a b
  unfold schedLe
  suffices htot : ∀ as bs : List Char, lexLe as bs = true ∨ lexLe bs as = true from
    htot a.time.data b.time.data
  intro as
  induction as with
  | nil => intro bs; left; rfl
  | cons x xs ih =>
    intro bs
    cases bs with
    | nil => right; rfl
    | cons y ys =>
      simp only [lexLe]
      by_cases h1 : x.toNat < y.toNat
      · left; rw [if_pos h1]
      · by_cases h2 : y.toNat < x.toNat
        · right; rw [if_pos h2]
        · simp only [if_neg h1, if_neg h2]
          exact ih ys

/-- schedLe is transitive (needed for sortedness of the insertion sort). -/
instance : IsTrans ScheduleItem schedLe := by
  constructor
  intro a b c hab hbc
  unfold schedLe at hab hbc ⊢
  revert hab hbc
  suffices htr : ∀ as bs cs : List Char,
      lexLe as bs = true → lexLe bs cs = true → lexLe as cs = true from
    htr a.time.data b.time.data c.time.data
  intro as
  induction as with
  | nil => intro bs cs _ _; rfl
  | cons x xs ih =>
    intro bs cs hab hbc
    cases bs with
    | nil => simp [lexLe] at hab
    | cons y ys =>
      cases cs with
      | nil => simp [lexLe] at hbc
      | cons z zs =>
        simp only [lexLe] at hab hbc ⊢
        by_cases h1 : x.toNat < y.toNat
        · have hyz : y.toNat ≤ z.toNat := by
            by_cases h3 : y.toNat < z.toNat
            · omega
            · by_cases h4 : z.toNat < y.toNat
              · rw [if_neg h3, if_pos h4] at hbc; exact absurd hbc (by simp)
              · omega
          rw [if_pos (by omega : x.toNat < z.toNat)]
        · by_cases h2 : y.toNat < x.toNat
          · rw [if_neg h1, if_pos h2] at hab; exact absurd hab (by simp)
          · rw [if_neg h1, if_neg h2] at hab
            by_cases h3 : y.toNat < z.toNat
            · rw [if_pos (by omega : x.toNat < z.toNat)]
            · by_cases h4 : z.toNat < y.toNat
              · rw [if_neg h3, if_pos h4] at hbc; exact absurd hbc (by simp)
              · rw [if_neg h3, if_neg h4] at hbc
                rw [if_neg (by omega : ¬ x.toNat < z.toNat),
                    if_neg (by omega : ¬ z.toNat < x.toNat)]
                exact ih ys zs hab hbc


/-- The schedule row built for medication `m` at time-of-day `t`. -/
def mkScheduleItem (m : Medication) (takenIds : List String) (t : String) :
    ScheduleItem :=
  { medication_id := m.id, medication_name := m.medication_name,
    dosage := m.dosage, time := t,
    taken := takenIds.contains m.id, notes := m.notes,
    frequency := m.frequency }

/-- Model of `DatabaseManager.get_today_medications` (src/models.py lines
693-730): expand each active medication's times into one row per list entry,
mark a row taken when today's logs of the patient contain its medication id,
and sort by the time string.  Python's `list.sort` is a stable sort, and a
stable sort's output is uniquely determined by the key order, so the
insertion sort used here computes the same list. -/
def get_today_medications (s : Store) (now : Int) (patient_id : String) :
    List ScheduleItem :=
  let medications := get_patient_medications s patient_id
  if medications.isEmpty then []
  else
    let today := dateOf now
    let logs := s.medication_logs.filter (fun l =>
      l.patient_id == patient_id && decide (l.date = today))
    let takenIds := logs.map (fun l => l.medication_id)
    let sched := medications.flatMap (fun m =>
      m.times.map (mkScheduleItem m takenIds))
    List.insertionSort schedLe sched

/-! ### Concrete fixtures used by the claim theorems -/

/-- Projection: the taken-dose count of a successful compliance result. -/
def takenOf : Res ComplianceResult → Option Int
  | Res.ok c => some c.taken_doses
  | Res.err _ => none

/-- Projection: the expected-dose count of a successful compliance result. -/
def expectedOf : Res ComplianceResult → Option Int
  | Res.ok c => some c.expected_doses
  | Res.err _ => none

/-- Projection: the percentage of a successful compliance result. -/
def compOf : Res ComplianceResult → Option ℚ
  | Res.ok c => some c.compliance_percentage
  | Res.err _ => none

/-- A patient-role user, for scenarios that need one. -/
def fixUser : User :=
  { id := "u1", email := "pat@example.com", password := "pw", role := "patient",
    is_active := true, created_at := 0 }

/-- A patient profile belonging to `fixUser`. -/
def fixPatient : Patient :=
  { id := "p1", user_id := "u1", name := "John", age := 35, gender := "M",
    allergies := [], medical_conditions := [], guardian_code := "111111",
    created_at := 0 }

/-- An active medication of `fixPatient` with a single daily time. -/
def fixMedOnce : Medication :=
  { id := "m1", patient_id := "p1", medication_name := "Metformin",
    dosage := "500mg", frequency := "daily", times := ["08:00"], notes := "",
    side_effects := "", storage := "", refill_date := none, is_active := true,
    created_at := 0, updated_at := none, deactivated_at := none }

/-- Store with one patient-role user and a patient profile. -/
def patStore : Store := { emptyStore with users := [fixUser], patients := [fixPatient] }

/-- Store for the C10 scenario: the patient plus one single-time medication. -/
def c10Store : Store := { patStore with medications := [fixMedOnce] }

/-- Store for the C1 counterexample: a patient with no active medications but
with one medication-log row dated day 0 (in range for any query at day 0). -/
def c1cxStore : Store :=
  { emptyStore with
    medication_logs := [{ id := "L1", patient_id := "p1", medication_id := "m9",
                          taken_at := 0, date := 0, status := "taken" }] }

/-- Pharmacy for the C4 counterexample: the name-matching item is out of
stock, a different item is in stock. -/
def c4Pharmacy : Pharmacy :=
  { id := "ph1", user_id := "u2", name := "MediCare", address := "addr",
    phone := "123", license_number := "LIC", is_verified := false,
    delivery_available := false,
    inventory := [{ medication_name := "Aspirin", price := 1, in_stock := false,
                    updated_at := 0 },
                  { medication_name := "Tylenol", price := 1, in_stock := true,
                    updated_at := 0 }],
    created_at := 0 }

/-- Store holding only `c4Pharmacy`. -/
def c4Store : Store := { emptyStore with pharmacies := [c4Pharmacy] }

/-- Pharmacy for the C5 evidence: inventory holds exactly one item, named
"Aspirin"; its lower-cased name list is duplicate-free. -/
def c5Pharmacy : Pharmacy :=
  { id := "ph1", user_id := "u2", name := "P", address := "a", phone := "p",
    license_number := "L", is_verified := false, delivery_available := false,
    inventory := [{ medication_name := "Aspirin", price := 1, in_stock := true,
                    updated_at := 0 }],
    created_at := 0 }

/-- Store holding only `c5Pharmacy`. -/
def c5Store : Store := { emptyStore with pharmacies := [c5Pharmacy] }

/-- Store for C3: a patient-role user without a patient profile. -/
def c3Store : Store := { emptyStore with users := [fixUser] }

/-- The store reached from `c10Store` after the two C10 logging calls. -/
def c10after : Store :=
  { patStore with
    medications := [fixMedOnce],
    medication_logs :=
      [{ id := "L1", patient_id := "p1", medication_id := "m1", taken_at := 3600,
         date := 0, status := "taken" },
       { id := "L2", patient_id := "p1", medication_id := "m1", taken_at := 3700,
         date := 0, status := "taken" }] }

/-- An active medication with two daily times, for the C1 and C2 scenarios. -/
def fixMedTwice : Medication := { fixMedOnce with times := ["08:00", "20:00"] }

/-- One taken-log row for `fixMedTwice` dated day `d`. -/
def c1Log (i : String) (d : Int) : MedicationLog :=
  { id := i, patient_id := "p1", medication_id := "m1", taken_at := d * 86400,
    date := d, status := "taken" }

/-- Store for the C1 scenario: one active medication with 2 times per day and
7 taken-logs on days 2..8; queried at `now = 691200` (day 8) over 7 days the
window is days 2..8. -/
def c1Store : Store :=
  { patStore with
    medications := [fixMedTwice],
    medication_logs :=
      [c1Log "L1" 2, c1Log "L2" 3, c1Log "L3" 4, c1Log "L4" 5, c1Log "L5" 6,
       c1Log "L6" 7, c1Log "L7" 8] }

/-- Store for the C2 scenario, built by the modelled `add_medication` call
with times 08:00 and 20:00. -/
def c2Store : Store :=
  (add_medication patStore 0 "m1" "p1" "Metformin" "500mg" "daily"
    ["08:00", "20:00"] none none none none).2

/-- The C2 scenario store after one `log_medication_taken` call today. -/
def c2StoreLogged : Store :=
  (log_medication_taken c2Store 0 "L1" "p1" "m1" none).2

/-- Argument bundle of one `log_symptom` call (for iterating sequences of
calls in C6). -/
structure SymCall where
  now : Int
  patient_id : String
  mood : Int
  energy_level : Int
  pain_level : Int
  side_effects : Option (List String)
  notes : Option String

/-- Run one bundled `log_symptom` call. -/
def applySymCall (s : Store) (c : SymCall) : Store :=
  (log_symptom s c.now c.patient_id c.mood c.energy_level c.pain_level
    c.side_effects c.notes).2

/-- Run a sequence of `log_symptom` calls. -/
def applySymCalls (s : Store) (calls : List SymCall) : Store :=
  calls.foldl applySymCall s

/-- At most one symptom record per (patient, calendar date): no two entries
share their key. -/
def SymInv (l : List SymptomLog) : Prop :=
  l.Pairwise (fun a b => ¬(a.patient_id = b.patient_id ∧ a.date = b.date))

/-- A sparse update used in the C9 witness: a new dosage, all other fields
not supplied. -/
def c9Updates : MedUpdates := { dosage := some "850mg" }

/-- Store for the C9 witness: the patient plus one medication. -/
def c9Store : Store := { patStore with medications := [fixMedOnce] }

/-- The 08:00 schedule row of the C2 scenario after the log call. -/
def c2Row : ScheduleItem :=
  { medication_id := "m1", medication_name := "Metformin", dosage := "500mg",
    time := "08:00", taken := true, notes := "", frequency := "daily" }

/-- The log row inserted in the C2 scenario. -/
def c2WLog : MedicationLog :=
  { id := "L1", patient_id := "p1", medication_id := "m1", taken_at := 0,
    date := 0, status := "taken" }

/-- The record expected after the C9 witness update. -/
def c9NewMed : Medication :=
  { fixMedOnce with dosage := "850mg", updated_at := some 5 }

/-! ### C3 -/

/-- Claim C3 (code bug evidence): `create_patient_profile` with `age = 0`, a
patient-role user with no existing profile, and non-empty name and gender is
rejected by the `not all([user_id, name, age, gender])` truthiness guard with
the missing-fields error and persists nothing, although `0 ≤ 0 ≤ 150` and the
code's own age check (`age < 0 or age > 150`) treats 0 as a valid age; the
identical call with `age = 1` succeeds. -/
theorem C3_failing_eval :
    create_patient_profile c3Store 0 "p1" [314159] "u1" "John" 0 "M" none none
      = (Res.err "User ID, name, age, and gender are required", c3Store)
    ∧ ¬((0 : Int) < 0 ∨ 150 < (0 : Int))
    ∧ (create_patient_profile c3Store 0 "p1" [314159] "u1" "John" 1 "M" none none).1
      = Res.ok "p1"
    ∧ (create_patient_profile c3Store 0 "p1" [314159] "u1" "John" 1 "M" none none).2.patients.length
      = 1 := by
  decide

/-! ### C4 -/

/-- Claim C4 (code bug evidence): the search query returns `c4Pharmacy` for
"aspirin" although no single inventory item both matches the name and is in
stock — the two query conditions are satisfied by different array elements
(MongoDB semantics without `$elemMatch`). -/
theorem C4_failing_eval :
    search_pharmacies_by_medication c4Store "aspirin" = [c4Pharmacy]
    ∧ c4Pharmacy.inventory.any (fun item =>
        containsSub (lowerStr (stripStr "aspirin")).data
          (lowerStr item.medication_name).data && item.in_stock) = false := by
  decide

/-! ### C5 -/

/-- Claim C5 (code bug evidence): first, `add_pharmacy_inventory` with
`price = 0` is rejected by the truthiness guard with the missing-fields error
although `0 < 0` is false (the claim says price 0 is accepted); second, a call
whose medication name has leading whitespace escapes the case-insensitive
duplicate check (which does not strip) and appends the stripped name, breaking
the case-insensitive uniqueness invariant that held before the call. -/
theorem C5_failing_eval :
    add_pharmacy_inventory c5Store 5 "ph1" "Aspirin" 0 true
      = (Res.err "Pharmacy ID, medication name, and price are required", c5Store)
    ∧ ¬((0 : ℚ) < 0)
    ∧ (c5Pharmacy.inventory.map (fun i => lowerStr i.medication_name)).Nodup
    ∧ ((add_pharmacy_inventory c5Store 5 "ph1" " Aspirin" 5 true).2.pharmacies.map
        (fun p => p.inventory.map (fun i => lowerStr i.medication_name)))
      = [["aspirin", "aspirin"]]
    ∧ ¬(["aspirin", "aspirin"] : List String).Nodup := by
  decide

/-! ### C8 counterexample -/

/-- Claim C8 counterexample: `create_pharmacy` performs two logical writes in
one successful call — it inserts a user and then inserts a pharmacy, so two
collections change, refuting "every operation performs at most one logical
write". -/
theorem C8_counterexample :
    (create_pharmacy emptyStore 0 "u9" "ph9" "a@b.c" "pw" "Name" "Addr" "123" "LIC").1
      = Res.ok "ph9"
    ∧ collectionsChanged emptyStore
        (create_pharmacy emptyStore 0 "u9" "ph9" "a@b.c" "pw" "Name" "Addr" "123" "LIC").2
      = 2 := by
  decide

/-! ### C1 counterexample -/

/-- Claim C1 counterexample: for a patient with no active medications but one
log row in range (`days = 7`, which satisfies `1 ≤ days ≤ 365`),
`get_medication_compliance` returns `taken_doses = 0` even though the number
of medication-log rows for that patient with date in the queried window is 1;
the claim's description of `taken_doses` fails on the empty-medications early
return. -/
theorem C1_counterexample :
    takenOf (get_medication_compliance c1cxStore 0 "p1" 7) = some 0
    ∧ (c1cxStore.medication_logs.filter (fun l =>
        l.patient_id == "p1" && decide (dateOf 0 - (7 - 1) ≤ l.date) &&
        decide (l.date ≤ dateOf 0))).length = 1
    ∧ (1 : Int) ≤ 7 ∧ (7 : Int) ≤ 365 := by
  decide

/-! ### Helper lemmas -/

/-- Rounding zero gives zero. -/
lemma pyRound1_zero : pyRound1 0 = 0 := by
  norm_num [pyRound1, roundHalfEven]

/-- The accumulator form of a sum, as computed by the compliance loop. -/
lemma foldl_add_map {α : Type} (f : α → Int) :
    ∀ (l : List α) (a : Int), l.foldl (fun acc m => acc + f m) a = a + (l.map f).sum
  | [], a => by simp
  | x :: xs, a => by
    simp [List.foldl_cons, foldl_add_map f xs (a + f x)]
    ring

/-! ### C10 -/

/-- Claim C10: compliance has no upper bound of 100: starting from a store
with one active medication having a single daily time, two successful
`log_medication_taken` calls on the same day followed by
`get_medication_compliance` over `days = 1` give 2 taken doses against 1
expected dose, a compliance percentage of 200, which exceeds 100. -/
theorem C10_theorem :
    (log_medication_taken c10Store 3600 "L1" "p1" "m1" none).1 = Res.ok "L1"
    ∧ (log_medication_taken (log_medication_taken c10Store 3600 "L1" "p1" "m1" none).2
        3700 "L2" "p1" "m1" none).1 = Res.ok "L2"
    ∧ takenOf (get_medication_compliance
        (log_medication_taken (log_medication_taken c10Store 3600 "L1" "p1" "m1" none).2
          3700 "L2" "p1" "m1" none).2 3700 "p1" 1) = some 2
    ∧ expectedOf (get_medication_compliance
        (log_medication_taken (log_medication_taken c10Store 3600 "L1" "p1" "m1" none).2
          3700 "L2" "p1" "m1" none).2 3700 "p1" 1) = some 1
    ∧ compOf (get_medication_compliance
        (log_medication_taken (log_medication_taken c10Store 3600 "L1" "p1" "m1" none).2
          3700 "L2" "p1" "m1" none).2 3700 "p1" 1) = some 200
    ∧ (100 : ℚ) < 200 := by
  refine ⟨by decide, by decide, by decide, by decide, ?_, by norm_num⟩
  have hs : (log_medication_taken (log_medication_taken c10Store 3600 "L1" "p1" "m1" none).2
      3700 "L2" "p1" "m1" none).2 = c10after := by decide
  rw [hs]
  have h : get_medication_compliance c10after 3700 "p1" 1
      = Res.ok { compliance_percentage := pyRound1 (((2 : Int) : ℚ) / ((1 : Int) : ℚ) * 100),
                 taken_doses := 2, expected_doses := 1, period_days := some 1,
                 message := none } := by
    rfl
  rw [h, compOf]
  norm_num [pyRound1, roundHalfEven]

/-! ### C1 -/

/-- Claim C1 (amended): for every store, patient and days, the operation fails
with the range error when days is outside 1..365; when 1 <= days <= 365 and
the patient has at least one active medication, it returns expected doses
equal to the sum over active medications of (times per day x days), taken
doses equal to the count of the patient's log rows with date in the window
[today - (days-1), today], and a compliance percentage that is 0 when the
expected count is 0 and otherwise round(taken / expected x 100, 1); in the
concrete scenario (one active medication with 2 times per day, 7 taken-logs
in range, days = 7) this gives 14, 7 and 50.0.  (The un-amended claim fails
when the patient has no active medications; see the counterexample.) -/
theorem C1_theorem :
    (∀ (s : Store) (now : Int) (patient_id : String) (days : Int),
      ((days < 1 ∨ 365 < days) →
        get_medication_compliance s now patient_id days
          = Res.err "Days must be between 1 and 365")
      ∧ (1 ≤ days → days ≤ 365 → get_patient_medications s patient_id ≠ [] →
          expectedOf (get_medication_compliance s now patient_id days)
            = some (((get_patient_medications s patient_id).map
                (fun m => (m.times.length : Int) * days)).sum)
          ∧ takenOf (get_medication_compliance s now patient_id days)
            = some (((s.medication_logs.filter (fun l =>
                l.patient_id == patient_id &&
                decide (dateOf now - (days - 1) ≤ l.date) &&
                decide (l.date ≤ dateOf now))).length : Int))
          ∧ (((get_patient_medications s patient_id).map
                (fun m => (m.times.length : Int) * days)).sum = 0 →
              compOf (get_medication_compliance s now patient_id days) = some 0)
          ∧ (((get_patient_medications s patient_id).map
                (fun m => (m.times.length : Int) * days)).sum ≠ 0 →
              compOf (get_medication_compliance s now patient_id days)
                = some (pyRound1
                    ((((s.medication_logs.filter (fun l =>
                          l.patient_id == patient_id &&
                          decide (dateOf now - (days - 1) ≤ l.date) &&
                          decide (l.date ≤ dateOf now))).length : Int) : ℚ)
                      / ((((get_patient_medications s patient_id).map
                          (fun m => (m.times.length : Int) * days)).sum : Int) : ℚ)
                      * 100)))))
    ∧ (takenOf (get_medication_compliance c1Store 691200 "p1" 7) = some 7
       ∧ expectedOf (get_medication_compliance c1Store 691200 "p1" 7) = some 14
       ∧ compOf (get_medication_compliance c1Store 691200 "p1" 7) = some 50) := by
  have H : ∀ (s : Store) (now : Int) (patient_id : String) (days : Int),
      ((days < 1 ∨ 365 < days) →
        get_medication_compliance s now patient_id days
          = Res.err "Days must be between 1 and 365")
      ∧ (1 ≤ days → days ≤ 365 → get_patient_medications s patient_id ≠ [] →
          expectedOf (get_medication_compliance s now patient_id days)
            = some (((get_patient_medications s patient_id).map
                (fun m => (m.times.length : Int) * days)).sum)
          ∧ takenOf (get_medication_compliance s now patient_id days)
            = some (((s.medication_logs.filter (fun l =>
                l.patient_id == patient_id &&
                decide (dateOf now - (days - 1) ≤ l.date) &&
                decide (l.date ≤ dateOf now))).length : Int))
          ∧ (((get_patient_medications s patient_id).map
                (fun m => (m.times.length : Int) * days)).sum = 0 →
              compOf (get_medication_compliance s now patient_id days) = some 0)
          ∧ (((get_patient_medications s patient_id).map
                (fun m => (m.times.length : Int) * days)).sum ≠ 0 →
              compOf (get_medication_compliance s now patient_id days)
                = some (pyRound1
                    ((((s.medication_logs.filter (fun l =>
                          l.patient_id == patient_id &&
                          decide (dateOf now - (days - 1) ≤ l.date) &&
                          decide (l.date ≤ dateOf now))).length : Int) : ℚ)
                      / ((((get_patient_medications s patient_id).map
                          (fun m => (m.times.length : Int) * days)).sum : Int) : ℚ)
                      * 100)))) := by
    intro s now patient_id days
    constructor
    · intro h
      unfold get_medication_compliance
      rw [if_pos]
      simp only [Bool.or_eq_true, decide_eq_true_eq]
      exact h
    · intro h1 h2 h3
      have hne : (get_patient_medications s patient_id).isEmpty = false := by
        cases hme : get_patient_medications s patient_id with
        | nil => exact absurd hme h3
        | cons a l => simp
      have hres : get_medication_compliance s now patient_id days
          = Res.ok { compliance_percentage :=
                       pyRound1 (if 0 < ((get_patient_medications s patient_id).map
                             (fun m => (m.times.length : Int) * days)).sum then
                           (((s.medication_logs.filter (fun l =>
                               l.patient_id == patient_id &&
                               decide (dateOf now - (days - 1) ≤ l.date) &&
                               decide (l.date ≤ dateOf now))).length : Int) : ℚ)
                             / ((((get_patient_medications s patient_id).map
                               (fun m => (m.times.length : Int) * days)).sum : Int) : ℚ)
                             * 100
                         else 0),
                     taken_doses := ((s.medication_logs.filter (fun l =>
                       l.patient_id == patient_id &&
                       decide (dateOf now - (days - 1) ≤ l.date) &&
                       decide (l.date ≤ dateOf now))).length : Int),
                     expected_doses := ((get_patient_medications s patient_id).map
                       (fun m => (m.times.length : Int) * days)).sum,
                     period_days := some days, message := none } := by
        unfold get_medication_compliance
        rw [if_neg (by simp only [Bool.or_eq_true, decide_eq_true_eq]; omega)]
        rw [if_neg (by rw [hne]; exact Bool.false_ne_true)]
        simp only [foldl_add_map, zero_add]
      refine ⟨?_, ?_, ?_, ?_⟩
      · rw [hres]; simp only [expectedOf]
      · rw [hres]; simp only [takenOf]
      · intro hE
        rw [hres]; simp only [compOf]
        rw [if_neg (by omega)]
        rw [pyRound1_zero]
      · intro hE
        have hpos : 0 < ((get_patient_medications s patient_id).map
            (fun m => (m.times.length : Int) * days)).sum := by
          have hnn : 0 ≤ ((get_patient_medications s patient_id).map
              (fun m => (m.times.length : Int) * days)).sum := by
            apply List.sum_nonneg
            intro x hx
            obtain ⟨m, hm, rfl⟩ := List.mem_map.mp hx
            exact mul_nonneg (Int.natCast_nonneg _) (by omega)
          omega
        rw [hres]; simp only [compOf]
        rw [if_pos hpos]
  refine ⟨H, ?_, ?_, ?_⟩
  · decide
  · decide
  · have h := ((H c1Store 691200 "p1" 7).2 (by norm_num) (by norm_num)
      (by decide)).2.2.2 (by decide)
    rw [h]
    have hT : ((c1Store.medication_logs.filter (fun l =>
        l.patient_id == "p1" &&
        decide (dateOf 691200 - (7 - 1) ≤ l.date) &&
        decide (l.date ≤ dateOf 691200))).length : Int) = 7 := by decide
    have hE : ((get_patient_medications c1Store "p1").map
        (fun m => (m.times.length : Int) * 7)).sum = 14 := by decide
    rw [hT, hE]
    norm_num [pyRound1, roundHalfEven]


/-- Witness for C1: the range branch at days = 400 on a concrete store. -/
theorem C1_witness :
    get_medication_compliance patStore 0 "p1" 400
      = Res.err "Days must be between 1 and 365" :=
  (C1_theorem.1 patStore 0 "p1" 400).1 (by norm_num)

/-! ### C2 -/

/-- Claim C2: for every store, patient and time, getTodayMedications returns
a list sorted by the lexicographic order of the HH:MM time strings that is a
permutation of the expansion of each active medication's times list into one
row per listed time, and a row's taken flag is true exactly when some log for
that patient with today's date carries the row's medication id (join by
medication id, not by time slot); in the scenario with times 08:00 and 20:00
both rows are untaken before any log and both become taken after one
logMedicationTaken call. -/
theorem C2_theorem :
    (∀ (s : Store) (now : Int) (patient_id : String),
      List.Sorted schedLe (get_today_medications s now patient_id)
      ∧ (get_today_medications s now patient_id).Perm
          ((get_patient_medications s patient_id).flatMap (fun m =>
            m.times.map (mkScheduleItem m
              ((s.medication_logs.filter (fun l =>
                l.patient_id == patient_id && decide (l.date = dateOf now))).map
                (fun l => l.medication_id)))))
      ∧ (∀ row ∈ get_today_medications s now patient_id,
          (row.taken = true ↔ ∃ l ∈ s.medication_logs,
            l.patient_id = patient_id ∧ l.date = dateOf now ∧
            l.medication_id = row.medication_id)))
    ∧ (get_today_medications c2Store 0 "p1").map (fun r => (r.time, r.taken))
      = [("08:00", false), ("20:00", false)]
    ∧ (get_today_medications c2StoreLogged 0 "p1").map (fun r => (r.time, r.taken))
      = [("08:00", true), ("20:00", true)] := by
  refine ⟨?_, by decide, by decide⟩
  intro s now patient_id
  unfold get_today_medications
  by_cases hm : (get_patient_medications s patient_id).isEmpty
  · rw [if_pos hm]
    have hnil : get_patient_medications s patient_id = [] :=
      List.isEmpty_iff.mp hm
    refine ⟨List.sorted_nil, ?_, by intro row hrow; cases hrow⟩
    rw [hnil]
    simp
  · rw [if_neg hm]
    refine ⟨List.sorted_insertionSort _ _, List.perm_insertionSort _ _, ?_⟩
    intro row hrow
    have hmem : row ∈ (get_patient_medications s patient_id).flatMap (fun m =>
        m.times.map (mkScheduleItem m
          ((s.medication_logs.filter (fun l =>
            l.patient_id == patient_id && decide (l.date = dateOf now))).map
            (fun l => l.medication_id)))) :=
      (List.perm_insertionSort _ _).mem_iff.mp hrow
    obtain ⟨m, hmmem, hrow2⟩ := List.mem_flatMap.mp hmem
    obtain ⟨t, htmem, rfl⟩ := List.mem_map.mp hrow2
    simp only [mkScheduleItem]
    constructor
    · intro htaken
      have hin : m.id ∈ (s.medication_logs.filter (fun l =>
          l.patient_id == patient_id && decide (l.date = dateOf now))).map
          (fun l => l.medication_id) := List.elem_iff.mp htaken
      obtain ⟨l, hl, hlid⟩ := List.mem_map.mp hin
      obtain ⟨hl1, hl2⟩ := List.mem_filter.mp hl
      simp only [Bool.and_eq_true, beq_iff_eq, decide_eq_true_eq] at hl2
      exact ⟨l, hl1, hl2.1, hl2.2, hlid⟩
    · rintro ⟨l, hl, hpid, hdate, hlid⟩
      show List.contains _ _ = true
      apply List.elem_iff.mpr
      apply List.mem_map.mpr
      refine ⟨l, List.mem_filter.mpr ⟨hl, ?_⟩, hlid⟩
      simp only [Bool.and_eq_true, beq_iff_eq, decide_eq_true_eq]
      exact ⟨hpid, hdate⟩


/-- Witness for C2: the taken-iff conjunct applied to the 08:00 row of the
logged scenario store, with the membership hypothesis discharged. -/
theorem C2_witness : c2Row.taken = true :=
  ((C2_theorem.1 c2StoreLogged 0 "p1").2.2 c2Row (by decide)).mpr
    ⟨c2WLog, by decide, by decide, by decide, by decide⟩

/-! ### Helper lemmas for the symptom upsert (C6) -/

lemma mem_updateFirst {α : Type} (p : α → Bool) (f : α → α) :
    ∀ (l : List α) (y : α), y ∈ updateFirst p f l →
      y ∈ l ∨ ∃ z ∈ l, p z = true ∧ y = f z
  | [], y, h => by cases h
  | x :: xs, y, h => by
    by_cases hx : p x
    · simp only [updateFirst, if_pos hx] at h
      rcases List.mem_cons.mp h with rfl | h2
      · exact Or.inr ⟨x, List.mem_cons_self x xs, hx, rfl⟩
      · exact Or.inl (List.mem_cons_of_mem _ h2)
    · simp only [updateFirst, if_neg hx] at h
      rcases List.mem_cons.mp h with rfl | h2
      · exact Or.inl (List.mem_cons_self _ _)
      · rcases mem_updateFirst p f xs y h2 with h3 | ⟨z, hz, hpz, rfl⟩
        · exact Or.inl (List.mem_cons_of_mem _ h3)
        · exact Or.inr ⟨z, List.mem_cons_of_mem _ hz, hpz, rfl⟩

lemma mem_updateFirst_self {α : Type} (p : α → Bool) (d : α) :
    ∀ l : List α, l.any p = true → d ∈ updateFirst p (fun _ => d) l
  | x :: xs, h => by
    by_cases hx : p x
    · simp only [updateFirst, if_pos hx]
      exact List.mem_cons_self _ _
    · simp only [updateFirst, if_neg hx]
      apply List.mem_cons_of_mem
      apply mem_updateFirst_self p d xs
      simpa [hx] using h

lemma pairwise_updateFirst {α : Type} {R : α → α → Prop} (p : α → Bool) (f : α → α)
    (hf : ∀ x, p x = true → (∀ y, (R x y → R (f x) y) ∧ (R y x → R y (f x)))) :
    ∀ l : List α, l.Pairwise R → (updateFirst p f l).Pairwise R
  | [], h => h
  | x :: xs, h => by
    rcases List.pairwise_cons.mp h with ⟨hx, hxs⟩
    by_cases hpx : p x
    · simp only [updateFirst, if_pos hpx]
      exact List.pairwise_cons.mpr ⟨fun y hy => (hf x hpx y).1 (hx y hy), hxs⟩
    · simp only [updateFirst, if_neg hpx]
      refine List.pairwise_cons.mpr ⟨?_, pairwise_updateFirst p f hf xs hxs⟩
      intro y hy
      rcases mem_updateFirst p f xs y hy with h2 | ⟨z, hz, hpz, rfl⟩
      · exact hx y h2
      · exact (hf z hpz x).2 (hx z hz)

lemma length_filter_le_one_of_pairwise {α : Type} {R : α → α → Prop} (p : α → Bool)
    (hp : ∀ a b, p a = true → p b = true → ¬ R a b) :
    ∀ l : List α, l.Pairwise R → (l.filter p).length ≤ 1
  | [], _ => by simp
  | x :: xs, h => by
    rcases List.pairwise_cons.mp h with ⟨hx, hxs⟩
    by_cases hpx : p x
    · rw [List.filter_cons_of_pos hpx]
      have hnil : xs.filter p = [] := by
        rw [List.filter_eq_nil_iff]
        intro y hy hpy
        exact hp x y hpx hpy (hx y hy)
      rw [hnil]
      simp
    · rw [List.filter_cons_of_neg hpx]
      exact length_filter_le_one_of_pairwise p hp xs hxs

lemma filter_updateFirst_const {α : Type} (p : α → Bool) (d : α) (hd : p d = true) :
    ∀ l : List α, (l.filter p).length ≤ 1 → l.any p = true →
      (updateFirst p (fun _ => d) l).filter p = [d]
  | x :: xs, hlen, hany => by
    by_cases hpx : p x
    · simp only [updateFirst, if_pos hpx]
      rw [List.filter_cons_of_pos hd]
      rw [List.filter_cons_of_pos hpx] at hlen
      have : (xs.filter p).length = 0 := by simpa using hlen
      rw [List.length_eq_zero] at this
      rw [this]
    · simp only [updateFirst, if_neg hpx]
      rw [List.filter_cons_of_neg hpx]
      rw [List.filter_cons_of_neg hpx] at hlen
      apply filter_updateFirst_const p d hd xs hlen
      simpa [hpx] using hany

lemma symKey_symData (now : Int) (pid : String) (m e q : Int)
    (se : Option (List String)) (n : Option String) (d : Int) (hd : d = dateOf now) :
    symKey pid d (symData now pid m e q se n) = true := by
  subst hd
  simp [symKey, symData]

lemma log_symptom_success (s : Store) (now : Int) (pid : String)
    (m e q : Int) (se : Option (List String)) (n : Option String)
    (hpid : pid ≠ "") (hm1 : 1 ≤ m) (hm2 : m ≤ 10) (he1 : 1 ≤ e) (he2 : e ≤ 10)
    (hq1 : 1 ≤ q) (hq2 : q ≤ 10)
    (hpat : (s.patients.find? (fun r => r.id == pid)).isSome) :
    (log_symptom s now pid m e q se n).2 =
      { s with symptoms := symUpsert s now pid (symData now pid m e q se n) } := by
  unfold log_symptom symUpsert
  rw [if_neg hpid]
  rw [if_neg (by simp; omega)]
  obtain ⟨v, hv⟩ := Option.isSome_iff_exists.mp hpat
  rw [if_neg (by simp [hv])]
  by_cases hany : s.symptoms.any (symKey pid (dateOf now))
  · simp only [hany, if_true, if_pos]
  · simp only [Bool.not_eq_true] at hany
    simp only [hany]
    rfl

lemma symInv_log_symptom (s : Store) (now : Int) (pid : String)
    (m e q : Int) (se : Option (List String)) (n : Option String) :
    SymInv s.symptoms → SymInv ((log_symptom s now pid m e q se n).2).symptoms := by
  intro h
  unfold log_symptom
  split
  · exact h
  · split
    · exact h
    · split
      · exact h
      · split
        · next hany =>
          apply pairwise_updateFirst
          · intro x hx y
            have hx2 : x.patient_id = pid ∧ x.date = dateOf now := by
              simpa [symKey] using hx
            have hd2 : (symData now pid m e q se n).patient_id = pid ∧
                (symData now pid m e q se n).date = dateOf now := by
              simp [symData]
            constructor
            · intro hR hcon
              exact hR ⟨hx2.1.trans (hd2.1.symm ▸ hcon.1.symm ▸ rfl), by
                rw [hx2.2, ← hcon.2, hd2.2]⟩
            · intro hR hcon
              exact hR ⟨by rw [hcon.1, hd2.1, ← hx2.1], by rw [hcon.2, hd2.2, ← hx2.2]⟩
          · exact h
        · next hany =>
          rw [SymInv, List.pairwise_append]
          refine ⟨h, List.pairwise_singleton _ _, ?_⟩
          intro a ha b hb
          have hb2 : b = symData now pid m e q se n := by simpa using hb
          subst hb2
          have hka : symKey pid (dateOf now) a = false := by
            rw [Bool.not_eq_true] at hany
            rw [List.any_eq_false] at hany
            simpa [Bool.not_eq_true] using (hany a ha)
          intro hcon
          rw [symKey] at hka
          simp only [Bool.and_eq_false_iff, beq_eq_false_iff_ne, decide_eq_false_iff_not] at hka
          rcases hka with hka | hka
          · exact hka (by rw [hcon.1]; simp [symData])
          · exact hka (by rw [hcon.2]; simp [symData])

/-! ### C6 -/

/-- Claim C6: starting from any store satisfying the one-record-per-(patient,
date) invariant, every sequence of logSymptom calls preserves it; and two
calls on the same calendar date for the same existing patient with in-range
integer values leave exactly one stored record for that key, whose values are
those of the second call. -/
theorem C6_theorem :
    (∀ (calls : List SymCall) (s : Store),
      SymInv s.symptoms → SymInv (applySymCalls s calls).symptoms)
    ∧ (∀ (s : Store) (now1 now2 : Int) (pid : String)
        (m1 e1 q1 m2 e2 q2 : Int) (se1 se2 : Option (List String))
        (n1 n2 : Option String),
        SymInv s.symptoms → pid ≠ "" →
        (s.patients.find? (fun r => r.id == pid)).isSome →
        1 ≤ m1 → m1 ≤ 10 → 1 ≤ e1 → e1 ≤ 10 → 1 ≤ q1 → q1 ≤ 10 →
        1 ≤ m2 → m2 ≤ 10 → 1 ≤ e2 → e2 ≤ 10 → 1 ≤ q2 → q2 ≤ 10 →
        dateOf now1 = dateOf now2 →
        ((log_symptom (log_symptom s now1 pid m1 e1 q1 se1 n1).2
            now2 pid m2 e2 q2 se2 n2).2.symptoms.filter (symKey pid (dateOf now2)))
          = [symData now2 pid m2 e2 q2 se2 n2]) := by
  constructor
  · intro calls
    induction calls with
    | nil => intro s h; exact h
    | cons c rest ih =>
      intro s h
      show SymInv (applySymCalls (applySymCall s c) rest).symptoms
      exact ih _ (symInv_log_symptom s c.now c.patient_id c.mood c.energy_level
        c.pain_level c.side_effects c.notes h)
  · intro s now1 now2 pid m1 e1 q1 m2 e2 q2 se1 se2 n1 n2 hInv hpid hpat
      hma hmb hea heb hqa hqb hmc hmd hec hed hqc hqd hdate
    have h1 := log_symptom_success s now1 pid m1 e1 q1 se1 n1 hpid hma hmb hea heb
      hqa hqb hpat
    have hs1sym : (log_symptom s now1 pid m1 e1 q1 se1 n1).2.symptoms
        = symUpsert s now1 pid (symData now1 pid m1 e1 q1 se1 n1) := by rw [h1]
    have hs1pat : (log_symptom s now1 pid m1 e1 q1 se1 n1).2.patients = s.patients := by
      rw [h1]
    have hpat1 : ((log_symptom s now1 pid m1 e1 q1 se1 n1).2.patients.find?
        (fun r => r.id == pid)).isSome := by rw [hs1pat]; exact hpat
    have h2 := log_symptom_success (log_symptom s now1 pid m1 e1 q1 se1 n1).2
      now2 pid m2 e2 q2 se2 n2 hpid hmc hmd hec hed hqc hqd hpat1
    rw [h2]
    have hkey1 : symKey pid (dateOf now2) (symData now1 pid m1 e1 q1 se1 n1) = true :=
      symKey_symData now1 pid m1 e1 q1 se1 n1 _ hdate.symm
    have hany1 : (log_symptom s now1 pid m1 e1 q1 se1 n1).2.symptoms.any
        (symKey pid (dateOf now2)) = true := by
      rw [hs1sym]
      unfold symUpsert
      by_cases hany0 : s.symptoms.any (symKey pid (dateOf now1))
      · rw [if_pos hany0]
        apply List.any_eq_true.mpr
        exact ⟨_, mem_updateFirst_self _ _ _ hany0, hkey1⟩
      · rw [if_neg hany0]
        apply List.any_eq_true.mpr
        refine ⟨_, List.mem_append_right _ ?_, hkey1⟩
        exact List.mem_singleton.mpr rfl
    have hInv1 : SymInv (log_symptom s now1 pid m1 e1 q1 se1 n1).2.symptoms :=
      symInv_log_symptom s now1 pid m1 e1 q1 se1 n1 hInv
    have hlen : ((log_symptom s now1 pid m1 e1 q1 se1 n1).2.symptoms.filter
        (symKey pid (dateOf now2))).length ≤ 1 := by
      apply length_filter_le_one_of_pairwise (symKey pid (dateOf now2)) ?_ _ hInv1
      intro a b ha hb hR
      apply hR
      simp only [symKey, Bool.and_eq_true, beq_iff_eq, decide_eq_true_eq] at ha hb
      exact ⟨ha.1.trans hb.1.symm, ha.2.trans hb.2.symm⟩
    show (symUpsert (log_symptom s now1 pid m1 e1 q1 se1 n1).2 now2 pid
        (symData now2 pid m2 e2 q2 se2 n2)).filter (symKey pid (dateOf now2))
      = [symData now2 pid m2 e2 q2 se2 n2]
    unfold symUpsert
    rw [if_pos hany1]
    exact filter_updateFirst_const _ _
      (symKey_symData now2 pid m2 e2 q2 se2 n2 _ rfl) _ hlen hany1


/-- Witness for C6: two concrete same-day calls on the fixture patient leave
exactly the second call's record. -/
theorem C6_witness :
    ((log_symptom (log_symptom patStore 100 "p1" 3 4 5 none none).2
        200 "p1" 6 7 8 none none).2.symptoms.filter (symKey "p1" (dateOf 200)))
      = [symData 200 "p1" 6 7 8 none none] :=
  C6_theorem.2 patStore 100 200 "p1" 3 4 5 6 7 8 none none none none
    List.Pairwise.nil (by decide) (by decide) (by decide) (by decide) (by decide)
    (by decide) (by decide) (by decide) (by decide) (by decide) (by decide)
    (by decide) (by decide) (by decide) (by decide)

/-! ### Helper lemmas for the decimal representation and the code
generator (C7) -/

lemma digitChar_isDigit {d : Nat} (h : d < 10) : (digitChar d).isDigit = true := by
  interval_cases d <;> decide

lemma natReprAux_fuel : ∀ f g n, n < f → n < g → natReprAux f n = natReprAux g n
  | 0, _, n, hf, _ => absurd hf (Nat.not_lt_zero n)
  | _ + 1, 0, n, _, hg => absurd hg (Nat.not_lt_zero n)
  | f + 1, g + 1, n, hf, hg => by
    simp only [natReprAux]
    by_cases h : n < 10
    · rw [if_pos h, if_pos h]
    · rw [if_neg h, if_neg h]
      have hdiv : n / 10 < n := Nat.div_lt_self (by omega) (by omega)
      rw [natReprAux_fuel f g (n / 10) (by omega) (by omega)]

lemma natRepr_lt_ten {n : Nat} (h : n < 10) : natRepr n = [digitChar n] := by
  unfold natRepr
  simp only [natReprAux]
  rw [if_pos h]

lemma natRepr_ge_ten {n : Nat} (h : 10 ≤ n) :
    natRepr n = natRepr (n / 10) ++ [digitChar (n % 10)] := by
  unfold natRepr
  conv =>
    lhs
    rw [natReprAux]
  rw [if_neg (by omega)]
  have hdiv : n / 10 < n := Nat.div_lt_self (by omega) (by omega)
  rw [natReprAux_fuel n (n / 10 + 1) (n / 10) (by omega) (by omega)]

lemma natRepr_len_pos : ∀ n : Nat, 1 ≤ (natRepr n).length := by
  intro n
  by_cases h : n < 10
  · rw [natRepr_lt_ten h]; simp
  · rw [natRepr_ge_ten (by omega)]; simp

lemma natRepr_len_lower : ∀ k n, 10 ^ k ≤ n → k + 1 ≤ (natRepr n).length
  | 0, n, _ => natRepr_len_pos n
  | k + 1, n, h => by
    have h10 : 10 ≤ n := le_trans (by calc 10 = 10 ^ 1 := (pow_one 10).symm
                                          _ ≤ 10 ^ (k + 1) := Nat.pow_le_pow_right (by omega) (by omega)) h
    rw [natRepr_ge_ten h10, List.length_append]
    have hk : 10 ^ k ≤ n / 10 := by
      rw [Nat.le_div_iff_mul_le (by omega)]
      calc 10 ^ k * 10 = 10 ^ (k + 1) := by ring
        _ ≤ n := h
    have := natRepr_len_lower k (n / 10) hk
    simp only [List.length_cons, List.length_nil]
    omega

lemma natRepr_len_upper : ∀ k n, n < 10 ^ (k + 1) → (natRepr n).length ≤ k + 1
  | 0, n, h => by
    rw [natRepr_lt_ten (by simpa using h)]
    simp
  | k + 1, n, h => by
    by_cases h10 : n < 10
    · rw [natRepr_lt_ten h10]; simp
    · rw [natRepr_ge_ten (by omega), List.length_append]
      have hk : n / 10 < 10 ^ (k + 1) := by
        rw [Nat.div_lt_iff_lt_mul (by omega)]
        calc n < 10 ^ (k + 2) := h
          _ = 10 ^ (k + 1) * 10 := by ring
      have := natRepr_len_upper k (n / 10) hk
      simp only [List.length_cons, List.length_nil]
      omega

lemma natReprAux_digits : ∀ fuel n c, c ∈ natReprAux fuel n → c.isDigit = true
  | 0, _, c, h => absurd h (List.not_mem_nil c)
  | fuel + 1, n, c, h => by
    simp only [natReprAux] at h
    by_cases h10 : n < 10
    · rw [if_pos h10] at h
      rw [List.mem_singleton.mp h]
      exact digitChar_isDigit h10
    · rw [if_neg h10] at h
      rcases List.mem_append.mp h with h2 | h2
      · exact natReprAux_digits fuel (n / 10) c h2
      · rw [List.mem_singleton.mp h2]
        exact digitChar_isDigit (Nat.mod_lt n (by omega))

lemma genCodeLoop_some : ∀ (fuel : Nat) (draws : List Nat) (existing : List String)
    (c : String), genCodeLoop fuel draws existing = some c →
      c ∉ existing ∧ ∃ d ∈ draws, c = natStr d
  | fuel + 1, d :: rest, existing, c, h => by
    simp only [genCodeLoop] at h
    by_cases hc : existing.contains (natStr d)
    · rw [if_pos hc] at h
      obtain ⟨hne, e, he, rfl⟩ := genCodeLoop_some fuel rest existing c h
      exact ⟨hne, e, List.mem_cons_of_mem _ he, rfl⟩
    · rw [if_neg hc] at h
      obtain rfl := Option.some_injective _ h.symm
      refine ⟨fun hmem => hc (List.elem_iff.mpr hmem), d, List.mem_cons_self _ _, rfl⟩

lemma genCodeLoop_isSome : ∀ (fuel : Nat) (draws : List Nat) (existing : List String),
    draws.length ≤ fuel → (∃ d ∈ draws, natStr d ∉ existing) →
    (genCodeLoop fuel draws existing).isSome = true
  | 0, draws, existing, hlen, hex => by
    have hnil : draws = [] := List.length_eq_zero.mp (by omega)
    subst hnil
    simp at hex
  | fuel + 1, [], existing, hlen, hex => by simp at hex
  | fuel + 1, d :: rest, existing, hlen, hex => by
    simp only [genCodeLoop]
    by_cases hc : existing.contains (natStr d)
    · rw [if_pos hc]
      apply genCodeLoop_isSome fuel rest existing (by simpa using hlen)
      rcases hex with ⟨e, he, hne⟩
      rcases List.mem_cons.mp he with rfl | he2
      · exact absurd (List.elem_iff.mp hc) hne
      · exact ⟨e, he2, hne⟩
    · rw [if_neg hc]
      rfl

/-! ### C7 -/

/-- Claim C7 (amended): with draws in the randint range, exactly ten of them,
and a current timestamp of at least six decimal digits, the generated code is
always a 6-character numeric string (also on the fallback path), and whenever
at least one of the ten draws avoids the existing guardian codes the returned
code is not one of them; if all ten draws collide, the timestamp fallback is
returned without a uniqueness re-check (see the counterexample). -/
theorem C7_theorem :
    ∀ (draws : List Nat) (ts : Nat) (existing : List String),
      (∀ d ∈ draws, 100000 ≤ d ∧ d ≤ 999999) →
      draws.length = 10 →
      100000 ≤ ts →
      ((generate_guardian_code draws ts existing).length = 6
       ∧ (∀ c ∈ (generate_guardian_code draws ts existing).data, c.isDigit = true)
       ∧ ((∃ d ∈ draws, natStr d ∉ existing) →
           generate_guardian_code draws ts existing ∉ existing)) := by
  intro draws ts existing hrange hlen hts
  unfold generate_guardian_code
  cases h : genCodeLoop 10 draws existing with
  | some c =>
    obtain ⟨hne, d, hd, rfl⟩ := genCodeLoop_some 10 draws existing c h
    obtain ⟨hd1, hd2⟩ := hrange d hd
    have hlow : 6 ≤ (natRepr d).length := natRepr_len_lower 5 d (by omega)
    have hup : (natRepr d).length ≤ 6 := natRepr_len_upper 5 d (by omega)
    refine ⟨?_, ?_, fun _ => hne⟩
    · show (String.mk (natRepr d)).length = 6
      simp only [String.length]
      omega
    · intro c hc
      exact natReprAux_digits _ _ c hc
  | none =>
    refine ⟨?_, ?_, ?_⟩
    · show (timestampFallback ts).length = 6
      unfold timestampFallback lastSix natStr
      have hlow : 6 ≤ (natRepr ts).length := natRepr_len_lower 5 ts (by omega)
      simp only [String.length, List.length_drop]
      omega
    · intro c hc
      unfold timestampFallback lastSix natStr at hc
      have hc2 : c ∈ natRepr ts := List.drop_subset _ _ hc
      exact natReprAux_digits _ _ c hc2
    · intro hex
      have := genCodeLoop_isSome 10 draws existing (by omega) hex
      rw [h] at this
      simp at this


/-- Claim C7 counterexample: with all ten in-range draws colliding and the
timestamp 123456, the fallback path returns "123456", which is currently held
by another patient — refuting "never returns a code currently held by another
patient". -/
theorem C7_counterexample :
    (List.replicate 10 123456).all
      (fun d => decide (100000 ≤ d) && decide (d ≤ 999999)) = true
    ∧ (List.replicate 10 123456).length = 10
    ∧ 100000 ≤ 123456
    ∧ generate_guardian_code (List.replicate 10 123456) 123456 ["123456"]
      ∈ ["123456"] := by
  decide

/-- Witness for C7: ten fresh in-range draws against one existing code. -/
theorem C7_witness :
    (generate_guardian_code (List.replicate 10 100001) 1700000000 ["123456"]).length = 6
    ∧ generate_guardian_code (List.replicate 10 100001) 1700000000 ["123456"]
      ∉ (["123456"] : List String) :=
  have h := C7_theorem (List.replicate 10 100001) 1700000000 ["123456"]
    (by decide) (by decide) (by decide)
  ⟨h.1, h.2.2 ⟨100001, by decide, by decide⟩⟩


/-! ### Helper lemmas for updateFirst positions (C9) -/

lemma length_updateFirst {α : Type} (p : α → Bool) (f : α → α) :
    ∀ l : List α, (updateFirst p f l).length = l.length
  | [] => rfl
  | x :: xs => by
    by_cases hx : p x
    · simp only [updateFirst, if_pos hx, List.length_cons]
    · simp only [updateFirst, if_neg hx, List.length_cons,
        length_updateFirst p f xs]

lemma get?_updateFirst {α : Type} (p : α → Bool) (f : α → α) :
    ∀ (l : List α) (i : Nat),
      (updateFirst p f l).get? i = l.get? i ∨
      ∃ x, l.get? i = some x ∧ p x = true ∧
        (updateFirst p f l).get? i = some (f x)
  | [], _ => Or.inl rfl
  | x :: xs, i => by
    by_cases hx : p x
    · simp only [updateFirst, if_pos hx]
      cases i with
      | zero => exact Or.inr ⟨x, rfl, hx, rfl⟩
      | succ j => exact Or.inl rfl
    · simp only [updateFirst, if_neg hx]
      cases i with
      | zero => exact Or.inl rfl
      | succ j =>
        simpa only [List.get?_cons_succ] using get?_updateFirst p f xs j

/-! ### C9 -/

/-- Claim C9: the effective updateMedication (the keyword sparse patch)
leaves every collection other than medications unchanged, preserves the
number of medication records, and for every record position: a record whose
id differs from the target is unchanged, the identifying and creation fields
are always preserved, every field whose update entry is none (not supplied or
supplied as null) keeps its prior value, and any record that changed at all
got updated_at set to the call time. -/
theorem C9_theorem :
    ∀ (s : Store) (now : Int) (medication_id : String) (u : MedUpdates),
      ((update_medication s now medication_id u).2.users = s.users
       ∧ (update_medication s now medication_id u).2.patients = s.patients
       ∧ (update_medication s now medication_id u).2.guardians = s.guardians
       ∧ (update_medication s now medication_id u).2.pharmacies = s.pharmacies
       ∧ (update_medication s now medication_id u).2.medication_logs = s.medication_logs
       ∧ (update_medication s now medication_id u).2.symptoms = s.symptoms
       ∧ (update_medication s now medication_id u).2.guardian_links = s.guardian_links)
      ∧ (update_medication s now medication_id u).2.medications.length
        = s.medications.length
      ∧ (∀ (i : Nat) (mOld mNew : Medication),
          s.medications.get? i = some mOld →
          (update_medication s now medication_id u).2.medications.get? i = some mNew →
          (mOld.id ≠ medication_id → mNew = mOld)
          ∧ mNew.id = mOld.id
          ∧ mNew.patient_id = mOld.patient_id
          ∧ mNew.created_at = mOld.created_at
          ∧ mNew.deactivated_at = mOld.deactivated_at
          ∧ (u.medication_name = none → mNew.medication_name = mOld.medication_name)
          ∧ (u.dosage = none → mNew.dosage = mOld.dosage)
          ∧ (u.frequency = none → mNew.frequency = mOld.frequency)
          ∧ (u.times = none → mNew.times = mOld.times)
          ∧ (u.notes = none → mNew.notes = mOld.notes)
          ∧ (u.side_effects = none → mNew.side_effects = mOld.side_effects)
          ∧ (u.storage = none → mNew.storage = mOld.storage)
          ∧ (u.refill_date = none → mNew.refill_date = mOld.refill_date)
          ∧ (u.is_active = none → mNew.is_active = mOld.is_active)
          ∧ (mNew ≠ mOld → mNew.updated_at = some now)) := by
  intro s now medication_id u
  set L := updateFirst (fun m => m.id == medication_id) (applyMedUpdates u now)
    s.medications with hL
  have key : (update_medication s now medication_id u).2 = s ∨
      (update_medication s now medication_id u).2 = { s with medications := L } := by
    unfold update_medication
    by_cases h1 : medication_id = ""
    · rw [if_pos h1]; exact Or.inl rfl
    · rw [if_neg h1]
      by_cases h2 : u.hasSome
      · rw [if_neg (by simp [h2])]
        by_cases h3 : s.medications.any (fun m => m.id == medication_id) &&
            decide (updateFirst (fun m => m.id == medication_id)
              (applyMedUpdates u now) s.medications ≠ s.medications)
        · rw [if_pos h3]; exact Or.inr rfl
        · rw [if_neg h3]; exact Or.inl rfl
      · rw [if_pos (by simp [h2])]; exact Or.inl rfl
  rcases key with hk | hk
  · rw [hk]
    refine ⟨⟨rfl, rfl, rfl, rfl, rfl, rfl, rfl⟩, rfl, ?_⟩
    intro i mOld mNew hOld hNew
    have : mNew = mOld := by
      rw [hOld] at hNew
      exact (Option.some_injective _ hNew.symm)
    subst this
    refine ⟨fun _ => rfl, rfl, rfl, rfl, rfl, fun _ => rfl, fun _ => rfl,
      fun _ => rfl, fun _ => rfl, fun _ => rfl, fun _ => rfl, fun _ => rfl,
      fun _ => rfl, fun _ => rfl, fun h => absurd rfl h⟩
  · rw [hk]
    refine ⟨⟨rfl, rfl, rfl, rfl, rfl, rfl, rfl⟩, length_updateFirst _ _ _, ?_⟩
    intro i mOld mNew hOld hNew
    rcases get?_updateFirst (fun m => m.id == medication_id)
        (applyMedUpdates u now) s.medications i with hsame | ⟨x, hx, hpx, hfx⟩
    · have : mNew = mOld := by
        rw [hsame, hOld] at hNew
        exact Option.some_injective _ hNew.symm
      subst this
      refine ⟨fun _ => rfl, rfl, rfl, rfl, rfl, fun _ => rfl, fun _ => rfl,
        fun _ => rfl, fun _ => rfl, fun _ => rfl, fun _ => rfl, fun _ => rfl,
        fun _ => rfl, fun _ => rfl, fun h => absurd rfl h⟩
    · have hxo : x = mOld := by
        rw [hOld] at hx
        exact Option.some_injective _ hx.symm
      subst hxo
      have hnew2 : mNew = applyMedUpdates u now x := by
        rw [hfx] at hNew
        exact Option.some_injective _ hNew.symm
      subst hnew2
      have hid : x.id = medication_id := by simpa using hpx
      refine ⟨fun hne => absurd hid hne, ?_, ?_, ?_, ?_, ?_, ?_, ?_, ?_, ?_,
        ?_, ?_, ?_, ?_, fun _ => ?_⟩
      · rfl
      · rfl
      · rfl
      · rfl
      · intro h; simp [applyMedUpdates, h]
      · intro h; simp [applyMedUpdates, h]
      · intro h; simp [applyMedUpdates, h]
      · intro h; simp [applyMedUpdates, h]
      · intro h; simp [applyMedUpdates, h]
      · intro h; simp [applyMedUpdates, h]
      · intro h; simp [applyMedUpdates, h]
      · intro h; simp [applyMedUpdates, h]
      · intro h; simp [applyMedUpdates, h]
      · rfl


/-- Witness for C9: patching only the dosage of the fixture medication leaves
its name unchanged. -/
theorem C9_witness : c9NewMed.medication_name = fixMedOnce.medication_name :=
  ((C9_theorem c9Store 5 "m1" c9Updates).2.2 0 fixMedOnce c9NewMed
    (by decide) (by decide)).2.2.2.2.2.1 rfl


/-! ### Helper lemmas for write counting and error atomicity (C8) -/

lemma cc_self (s : Store) : collectionsChanged s s = 0 := by
  simp [collectionsChanged]

lemma cc_users (s : Store) (l : List User) :
    collectionsChanged s { s with users := l } ≤ 1 := by
  unfold collectionsChanged
  repeat' split
  all_goals simp_all

lemma cc_patients (s : Store) (l : List Patient) :
    collectionsChanged s { s with patients := l } ≤ 1 := by
  unfold collectionsChanged
  repeat' split
  all_goals simp_all

lemma cc_guardians (s : Store) (l : List Guardian) :
    collectionsChanged s { s with guardians := l } ≤ 1 := by
  unfold collectionsChanged
  repeat' split
  all_goals simp_all

lemma cc_medications (s : Store) (l : List Medication) :
    collectionsChanged s { s with medications := l } ≤ 1 := by
  unfold collectionsChanged
  repeat' split
  all_goals simp_all

lemma cc_pharmacies (s : Store) (l : List Pharmacy) :
    collectionsChanged s { s with pharmacies := l } ≤ 1 := by
  unfold collectionsChanged
  repeat' split
  all_goals simp_all

lemma cc_medication_logs (s : Store) (l : List MedicationLog) :
    collectionsChanged s { s with medication_logs := l } ≤ 1 := by
  unfold collectionsChanged
  repeat' split
  all_goals simp_all

lemma cc_symptoms (s : Store) (l : List SymptomLog) :
    collectionsChanged s { s with symptoms := l } ≤ 1 := by
  unfold collectionsChanged
  repeat' split
  all_goals simp_all

lemma cc_guardian_links (s : Store) (l : List GuardianLink) :
    collectionsChanged s { s with guardian_links := l } ≤ 1 := by
  unfold collectionsChanged
  repeat' split
  all_goals simp_all

lemma cc_users_pharmacies (s : Store) (l : List User) (l2 : List Pharmacy) :
    collectionsChanged s { s with users := l, pharmacies := l2 } ≤ 2 := by
  unfold collectionsChanged
  repeat' split
  all_goals simp_all

lemma create_user_err_atomic (s : Store) (now : Int) (i e pw r : String) :
    (create_user s now i e pw r).1.isErr = true → (create_user s now i e pw r).2 = s := by
  unfold create_user
  repeat' split
  all_goals intro h
  all_goals first | rfl | (simp [Res.isErr] at h)

lemma create_user_bound (s : Store) (now : Int) (i e pw r : String) :
    collectionsChanged s (create_user s now i e pw r).2 ≤ 1 := by
  unfold create_user
  repeat' split
  all_goals exact cc_users s _


lemma create_user_snd_cases (s : Store) (now : Int) (i e pw r : String) :
    (create_user s now i e pw r).2 = s ∨
    ∃ l, (create_user s now i e pw r).2 = { s with users := l } := by
  unfold create_user
  repeat' split
  all_goals first | (exact Or.inl rfl) | (exact Or.inr ⟨_, rfl⟩)

lemma create_patient_profile_err_atomic (s : Store) (now : Int) (newId : String)
    (draws : List Nat) (user_id name : String) (age : Int) (gender : String)
    (allergies conditions : Option (List String)) :
    (create_patient_profile s now newId draws user_id name age gender allergies conditions).1.isErr = true →
    (create_patient_profile s now newId draws user_id name age gender allergies conditions).2 = s := by
  unfold create_patient_profile
  repeat' split
  all_goals intro h
  all_goals first | rfl | (simp [Res.isErr] at h)

lemma create_patient_profile_bound (s : Store) (now : Int) (newId : String)
    (draws : List Nat) (user_id name : String) (age : Int) (gender : String)
    (allergies conditions : Option (List String)) :
    collectionsChanged s
      (create_patient_profile s now newId draws user_id name age gender allergies conditions).2 ≤ 1 := by
  unfold create_patient_profile
  repeat' split
  all_goals exact cc_patients s _

lemma create_guardian_profile_err_atomic (s : Store) (now : Int)
    (newId user_id name phone relationship : String) :
    (create_guardian_profile s now newId user_id name phone relationship).1.isErr = true →
    (create_guardian_profile s now newId user_id name phone relationship).2 = s := by
  unfold create_guardian_profile
  repeat' split
  all_goals intro h
  all_goals first | rfl | (simp [Res.isErr] at h)

lemma create_guardian_profile_bound (s : Store) (now : Int)
    (newId user_id name phone relationship : String) :
    collectionsChanged s
      (create_guardian_profile s now newId user_id name phone relationship).2 ≤ 1 := by
  unfold create_guardian_profile
  repeat' split
  all_goals exact cc_guardians s _

lemma link_guardian_to_patient_err_atomic (s : Store) (now : Int)
    (newId guardian_code guardian_user_id : String) :
    (link_guardian_to_patient s now newId guardian_code guardian_user_id).1.isErr = true →
    (link_guardian_to_patient s now newId guardian_code guardian_user_id).2 = s := by
  unfold link_guardian_to_patient
  repeat' split
  all_goals intro h
  all_goals first | rfl | (simp [Res.isErr] at h)

lemma link_guardian_to_patient_bound (s : Store) (now : Int)
    (newId guardian_code guardian_user_id : String) :
    collectionsChanged s
      (link_guardian_to_patient s now newId guardian_code guardian_user_id).2 ≤ 1 := by
  unfold link_guardian_to_patient
  repeat' split
  all_goals exact cc_guardian_links s _

lemma add_medication_err_atomic (s : Store) (now : Int)
    (newId patient_id med_name dosage frequency : String) (times : List String)
    (notes side_effects storage : Option String) (refill_date : Option Int) :
    (add_medication s now newId patient_id med_name dosage frequency times notes side_effects storage refill_date).1.isErr = true →
    (add_medication s now newId patient_id med_name dosage frequency times notes side_effects storage refill_date).2 = s := by
  unfold add_medication
  repeat' split
  all_goals intro h
  all_goals first | rfl | (simp [Res.isErr] at h)

lemma add_medication_bound (s : Store) (now : Int)
    (newId patient_id med_name dosage frequency : String) (times : List String)
    (notes side_effects storage : Option String) (refill_date : Option Int) :
    collectionsChanged s
      (add_medication s now newId patient_id med_name dosage frequency times notes side_effects storage refill_date).2 ≤ 1 := by
  unfold add_medication
  repeat' split
  all_goals exact cc_medications s _

lemma update_medication_err_atomic (s : Store) (now : Int) (medication_id : String)
    (u : MedUpdates) :
    (update_medication s now medication_id u).1.isErr = true →
    (update_medication s now medication_id u).2 = s := by
  simp only [update_medication]
  repeat' split
  all_goals intro h
  all_goals first | rfl | (simp [Res.isErr] at h)

lemma update_medication_bound (s : Store) (now : Int) (medication_id : String)
    (u : MedUpdates) :
    collectionsChanged s (update_medication s now medication_id u).2 ≤ 1 := by
  simp only [update_medication]
  repeat' split
  all_goals exact cc_medications s _

lemma delete_medication_err_atomic (s : Store) (medication_id : String) :
    (delete_medication s medication_id).1.isErr = true →
    (delete_medication s medication_id).2 = s := by
  unfold delete_medication
  repeat' split
  all_goals intro h
  all_goals first | rfl | (simp [Res.isErr] at h)

lemma delete_medication_bound (s : Store) (medication_id : String) :
    collectionsChanged s (delete_medication s medication_id).2 ≤ 1 := by
  unfold delete_medication
  repeat' split
  all_goals exact cc_medications s _

lemma deactivate_medication_err_atomic (s : Store) (now : Int) (medication_id : String) :
    (deactivate_medication s now medication_id).1.isErr = true →
    (deactivate_medication s now medication_id).2 = s := by
  simp only [deactivate_medication]
  repeat' split
  all_goals intro h
  all_goals first | rfl | (simp [Res.isErr] at h)

lemma deactivate_medication_bound (s : Store) (now : Int) (medication_id : String) :
    collectionsChanged s (deactivate_medication s now medication_id).2 ≤ 1 := by
  simp only [deactivate_medication]
  repeat' split
  all_goals exact cc_medications s _

lemma log_medication_taken_err_atomic (s : Store) (now : Int)
    (newId patient_id medication_id : String) (taken_at : Option Int) :
    (log_medication_taken s now newId patient_id medication_id taken_at).1.isErr = true →
    (log_medication_taken s now newId patient_id medication_id taken_at).2 = s := by
  unfold log_medication_taken
  repeat' split
  all_goals intro h
  all_goals first | rfl | (simp [Res.isErr] at h)

lemma log_medication_taken_bound (s : Store) (now : Int)
    (newId patient_id medication_id : String) (taken_at : Option Int) :
    collectionsChanged s
      (log_medication_taken s now newId patient_id medication_id taken_at).2 ≤ 1 := by
  unfold log_medication_taken
  repeat' split
  all_goals exact cc_medication_logs s _

lemma log_symptom_err_atomic (s : Store) (now : Int) (patient_id : String)
    (mood energy_level pain_level : Int) (side_effects : Option (List String))
    (notes : Option String) :
    (log_symptom s now patient_id mood energy_level pain_level side_effects notes).1.isErr = true →
    (log_symptom s now patient_id mood energy_level pain_level side_effects notes).2 = s := by
  simp only [log_symptom]
  repeat' split
  all_goals intro h
  all_goals first | rfl | (simp [Res.isErr] at h)

lemma log_symptom_bound (s : Store) (now : Int) (patient_id : String)
    (mood energy_level pain_level : Int) (side_effects : Option (List String))
    (notes : Option String) :
    collectionsChanged s
      (log_symptom s now patient_id mood energy_level pain_level side_effects notes).2 ≤ 1 := by
  simp only [log_symptom]
  repeat' split
  all_goals exact cc_symptoms s _

lemma add_pharmacy_inventory_err_atomic (s : Store) (now : Int)
    (pharmacy_id medication_name : String) (price : ℚ) (in_stock : Bool) :
    (add_pharmacy_inventory s now pharmacy_id medication_name price in_stock).1.isErr = true →
    (add_pharmacy_inventory s now pharmacy_id medication_name price in_stock).2 = s := by
  simp only [add_pharmacy_inventory]
  repeat' split
  all_goals intro h
  all_goals first | rfl | (simp [Res.isErr] at h)

lemma add_pharmacy_inventory_bound (s : Store) (now : Int)
    (pharmacy_id medication_name : String) (price : ℚ) (in_stock : Bool) :
    collectionsChanged s
      (add_pharmacy_inventory s now pharmacy_id medication_name price in_stock).2 ≤ 1 := by
  simp only [add_pharmacy_inventory]
  repeat' split
  all_goals exact cc_pharmacies s _

lemma create_pharmacy_err_atomic (s : Store) (now : Int)
    (newUserId newPharmacyId email password name address phone license_number : String) :
    (create_pharmacy s now newUserId newPharmacyId email password name address phone license_number).1.isErr = true →
    (create_pharmacy s now newUserId newPharmacyId email password name address phone license_number).2 = s := by
  unfold create_pharmacy
  split
  · intro _; rfl
  · split
    · next e s1 heq =>
      intro _
      have h2 := create_user_err_atomic s now newUserId email password "pharmacy"
        (by rw [heq]; rfl)
      rw [heq] at h2
      exact h2
    · intro h
      simp [Res.isErr] at h

lemma create_pharmacy_bound (s : Store) (now : Int)
    (newUserId newPharmacyId email password name address phone license_number : String) :
    collectionsChanged s
      (create_pharmacy s now newUserId newPharmacyId email password name address phone license_number).2 ≤ 2 := by
  unfold create_pharmacy
  split
  · simp [cc_self]
  · split
    · next e s1 heq =>
      have h2 := create_user_err_atomic s now newUserId email password "pharmacy"
        (by rw [heq]; rfl)
      rw [heq] at h2
      rw [h2]
      simp [cc_self]
    · next uid s1 heq =>
      rcases create_user_snd_cases s now newUserId email password "pharmacy" with h2 | ⟨l, h2⟩
      · rw [heq] at h2
        have h3 : s1 = s := h2
        rw [h3]
        exact le_trans (cc_pharmacies s _) (by omega)
      · rw [heq] at h2
        have h3 : s1 = { s with users := l } := h2
        rw [h3]
        exact cc_users_pharmacies s _ _

/-! ### C8 -/

/-- Claim C8 (amended): for every modelled Domain Store operation, an error
result leaves the stored state exactly as it was, and each operation changes
at most one collection (at most one logical write) — except createPharmacy,
which performs a user insert followed by a pharmacy insert and can change two
collections (see the counterexample). -/
theorem C8_amended_theorem :
    (∀ (s : Store) (now : Int) (i e pw r : String),
      ((create_user s now i e pw r).1.isErr = true → (create_user s now i e pw r).2 = s)
      ∧ collectionsChanged s (create_user s now i e pw r).2 ≤ 1)
    ∧ (∀ (s : Store) (now : Int) (newId : String) (draws : List Nat)
        (user_id name : String) (age : Int) (gender : String)
        (allergies conditions : Option (List String)),
      ((create_patient_profile s now newId draws user_id name age gender allergies conditions).1.isErr = true →
        (create_patient_profile s now newId draws user_id name age gender allergies conditions).2 = s)
      ∧ collectionsChanged s
          (create_patient_profile s now newId draws user_id name age gender allergies conditions).2 ≤ 1)
    ∧ (∀ (s : Store) (now : Int) (newId user_id name phone relationship : String),
      ((create_guardian_profile s now newId user_id name phone relationship).1.isErr = true →
        (create_guardian_profile s now newId user_id name phone relationship).2 = s)
      ∧ collectionsChanged s
          (create_guardian_profile s now newId user_id name phone relationship).2 ≤ 1)
    ∧ (∀ (s : Store) (now : Int) (newId guardian_code guardian_user_id : String),
      ((link_guardian_to_patient s now newId guardian_code guardian_user_id).1.isErr = true →
        (link_guardian_to_patient s now newId guardian_code guardian_user_id).2 = s)
      ∧ collectionsChanged s
          (link_guardian_to_patient s now newId guardian_code guardian_user_id).2 ≤ 1)
    ∧ (∀ (s : Store) (now : Int) (newId patient_id med_name dosage frequency : String)
        (times : List String) (notes side_effects storage : Option String)
        (refill_date : Option Int),
      ((add_medication s now newId patient_id med_name dosage frequency times notes side_effects storage refill_date).1.isErr = true →
        (add_medication s now newId patient_id med_name dosage frequency times notes side_effects storage refill_date).2 = s)
      ∧ collectionsChanged s
          (add_medication s now newId patient_id med_name dosage frequency times notes side_effects storage refill_date).2 ≤ 1)
    ∧ (∀ (s : Store) (now : Int) (medication_id : String) (u : MedUpdates),
      ((update_medication s now medication_id u).1.isErr = true →
        (update_medication s now medication_id u).2 = s)
      ∧ collectionsChanged s (update_medication s now medication_id u).2 ≤ 1)
    ∧ (∀ (s : Store) (medication_id : String),
      ((delete_medication s medication_id).1.isErr = true →
        (delete_medication s medication_id).2 = s)
      ∧ collectionsChanged s (delete_medication s medication_id).2 ≤ 1)
    ∧ (∀ (s : Store) (now : Int) (medication_id : String),
      ((deactivate_medication s now medication_id).1.isErr = true →
        (deactivate_medication s now medication_id).2 = s)
      ∧ collectionsChanged s (deactivate_medication s now medication_id).2 ≤ 1)
    ∧ (∀ (s : Store) (now : Int) (newId patient_id medication_id : String)
        (taken_at : Option Int),
      ((log_medication_taken s now newId patient_id medication_id taken_at).1.isErr = true →
        (log_medication_taken s now newId patient_id medication_id taken_at).2 = s)
      ∧ collectionsChanged s
          (log_medication_taken s now newId patient_id medication_id taken_at).2 ≤ 1)
    ∧ (∀ (s : Store) (now : Int) (patient_id : String)
        (mood energy_level pain_level : Int) (side_effects : Option (List String))
        (notes : Option String),
      ((log_symptom s now patient_id mood energy_level pain_level side_effects notes).1.isErr = true →
        (log_symptom s now patient_id mood energy_level pain_level side_effects notes).2 = s)
      ∧ collectionsChanged s
          (log_symptom s now patient_id mood energy_level pain_level side_effects notes).2 ≤ 1)
    ∧ (∀ (s : Store) (now : Int) (pharmacy_id medication_name : String)
        (price : ℚ) (in_stock : Bool),
      ((add_pharmacy_inventory s now pharmacy_id medication_name price in_stock).1.isErr = true →
        (add_pharmacy_inventory s now pharmacy_id medication_name price in_stock).2 = s)
      ∧ collectionsChanged s
          (add_pharmacy_inventory s now pharmacy_id medication_name price in_stock).2 ≤ 1)
    ∧ (∀ (s : Store) (now : Int)
        (newUserId newPharmacyId email password name address phone license_number : String),
      ((create_pharmacy s now newUserId newPharmacyId email password name address phone license_number).1.isErr = true →
        (create_pharmacy s now newUserId newPharmacyId email password name address phone license_number).2 = s)
      ∧ collectionsChanged s
          (create_pharmacy s now newUserId newPharmacyId email password name address phone license_number).2 ≤ 2) :=
  ⟨fun s now i e pw r => ⟨create_user_err_atomic s now i e pw r, create_user_bound s now i e pw r⟩,
   fun s now newId draws user_id name age gender allergies conditions =>
     ⟨create_patient_profile_err_atomic s now newId draws user_id name age gender allergies conditions,
      create_patient_profile_bound s now newId draws user_id name age gender allergies conditions⟩,
   fun s now newId user_id name phone relationship =>
     ⟨create_guardian_profile_err_atomic s now newId user_id name phone relationship,
      create_guardian_profile_bound s now newId user_id name phone relationship⟩,
   fun s now newId guardian_code guardian_user_id =>
     ⟨link_guardian_to_patient_err_atomic s now newId guardian_code guardian_user_id,
      link_guardian_to_patient_bound s now newId guardian_code guardian_user_id⟩,
   fun s now newId patient_id med_name dosage frequency times notes side_effects storage refill_date =>
     ⟨add_medication_err_atomic s now newId patient_id med_name dosage frequency times notes side_effects storage refill_date,
      add_medication_bound s now newId patient_id med_name dosage frequency times notes side_effects storage refill_date⟩,
   fun s now medication_id u =>
     ⟨update_medication_err_atomic s now medication_id u,
      update_medication_bound s now medication_id u⟩,
   fun s medication_id =>
     ⟨delete_medication_err_atomic s medication_id,
      delete_medication_bound s medication_id⟩,
   fun s now medication_id =>
     ⟨deactivate_medication_err_atomic s now medication_id,
      deactivate_medication_bound s now medication_id⟩,
   fun s now newId patient_id medication_id taken_at =>
     ⟨log_medication_taken_err_atomic s now newId patient_id medication_id taken_at,
      log_medication_taken_bound s now newId patient_id medication_id taken_at⟩,
   fun s now patient_id mood energy_level pain_level side_effects notes =>
     ⟨log_symptom_err_atomic s now patient_id mood energy_level pain_level side_effects notes,
      log_symptom_bound s now patient_id mood energy_level pain_level side_effects notes⟩,
   fun s now pharmacy_id medication_name price in_stock =>
     ⟨add_pharmacy_inventory_err_atomic s now pharmacy_id medication_name price in_stock,
      add_pharmacy_inventory_bound s now pharmacy_id medication_name price in_stock⟩,
   fun s now newUserId newPharmacyId email password name address phone license_number =>
     ⟨create_pharmacy_err_atomic s now newUserId newPharmacyId email password name address phone license_number,
      create_pharmacy_bound s now newUserId newPharmacyId email password name address phone license_number⟩⟩

/-- Witness for C8: a failing create_user call (empty email) leaves the empty
store unchanged. -/
theorem C8_witness :
    (create_user emptyStore 0 "u1" "" "pw" "patient").2 = emptyStore :=
  (C8_amended_theorem.1 emptyStore 0 "u1" "" "pw" "patient").1 (by decide)


end MediScan
